import Mathlib

/-!
ESP32 DHT11 node (`main/continuous_read_main.c`): embedding and properties.

Shallow embedding of the firmware's sensor decoder, connectivity event
handler, NVS-backed configuration store and provisioning handlers, followed by
theorems about them.

Conventions.
* A byte is a `Nat` in `0..255`; a `char[N]` array is a `List Nat` of length `N`.
* A C string pointer is the list of bytes from the pointed position to the end
  of the underlying array; the string it denotes is `cstr`, the bytes before
  the first NUL.
* Behaviour the C standard leaves undefined (a write beyond an array, a string
  read that meets no NUL inside the array) is the result `none`.
* `config.temperature` and `config.humidity` are `float` in the source; they
  only ever hold the initial `0` or a `uint8_t` value, all of which a `float`
  represents exactly, and are carried as `Nat`.
-/

namespace Dht11Node

/-! ## Bytes, arrays and the configuration record -/

/-- The bytes of a string literal. -/
def bytes (s : String) : List Nat := s.toList.map Char.toNat

/-- A `char[n]` array initialised from a string literal: the bytes of the
literal followed by NULs. -/
def c_array (n : Nat) (s : String) : List Nat := (bytes s ++ List.replicate n 0).take n

/-- The C string at the start of a byte sequence: the bytes before the first NUL. -/
def cstr (p : List Nat) : List Nat := p.takeWhile (fun c => c != 0)

/-- The struct `app_config_t`.  The `char` arrays are byte lists of the declared
sizes (32, 64, 32, 64, 32, 32, 64, 64, 64). -/
structure app_config_t where
  dht_gpio : Int
  temperature : Nat
  humidity : Nat
  wifi_ssid : List Nat
  wifi_password : List Nat
  wifi_max_retries : Int
  wifi_retry_delay_ms : Int
  default_ssid : List Nat
  default_password : List Nat
  ap_password : List Nat
  ap_ssid : List Nat
  mqtt_broker : List Nat
  mqtt_port : Nat
  mqtt_token : List Nat
  mqtt_telemetry_topic : List Nat
  oled_address : Nat
  i2c_sda_pin : Int
  i2c_scl_pin : Int
  deriving DecidableEq, Repr

/-- The static initialiser of `config` (lines 68-84); members it does not name
are zero. -/
def config_init : app_config_t where
  dht_gpio := 4
  temperature := 0
  humidity := 0
  wifi_ssid := c_array 32 ""
  wifi_password := c_array 64 ""
  wifi_max_retries := 5
  wifi_retry_delay_ms := 1000
  default_ssid := c_array 32 "SBC"
  default_password := c_array 64 "SBCwifi$"
  ap_password := c_array 32 "config123"
  ap_ssid := c_array 32 ""
  mqtt_broker := c_array 64 "demo.thingsboard.io"
  mqtt_port := 1883
  mqtt_token := c_array 64 "HGf7saV16hOPmVOmkTwb"
  mqtt_telemetry_topic := c_array 64 "v1/devices/me/telemetry"
  oled_address := 0x3C
  i2c_sda_pin := 21
  i2c_scl_pin := 22

/-! ## Sensor line and the single-wire decoder (`read_dht11_data`) -/

/-- The sensor line as seen by the decoder: `line k` is the level returned by
the `k`-th call of `gpio_get_level` after the line was switched to input
(`true` is level 1). -/
abbrev Line := Nat → Bool

/-- The line that replays the samples of `l` and then stays at `rest`. -/
def lineOf (l : List Bool) (rest : Bool) : Line := fun k => l.getD k rest

/-- The loop
`while (gpio_get_level(pin) == lvl) { if (timeout-- <= 0) return false; esp_rom_delay_us(1); }`
started with `timeout` and the next sample index `pos`.  The result is
`(completed, next sample index)`; `completed = false` is the `return false`. -/
def wait_while (line : Line) (lvl : Bool) : Nat → Nat → Bool × Nat
  | 0, pos => if line pos = lvl then (false, pos + 1) else (true, pos + 1)
  | timeout + 1, pos =>
    if line pos = lvl then wait_while line lvl timeout (pos + 1) else (true, pos + 1)

/-- The loop
`while (gpio_get_level(pin) == 1 && high_time < 100) { high_time++; esp_rom_delay_us(1); }`.
The first argument is the number of iterations still allowed by the guard
(`100` at the call, so it reaches `0` exactly when `high_time` is `100`); the
level is sampled before the guard on `high_time` is looked at.  The result is
`(high_time, next sample index)`. -/
def measure_high (line : Line) : Nat → Nat → Nat → Nat × Nat
  | 0, high_time, pos => (high_time, pos + 1)
  | fuel + 1, high_time, pos =>
    if line pos = true ∧ high_time < 100 then measure_high line fuel (high_time + 1) (pos + 1)
    else (high_time, pos + 1)

/-- Lines 715-718: `data[i / 8] <<= 1; if (high_time > 30) data[i / 8] |= 1;`
on a `uint8_t` array. -/
def store_bit (data : List Nat) (i : Nat) (high_time : Nat) : List Nat :=
  let data1 := data.set (i / 8) ((data.getD (i / 8) 0 <<< 1) % 256)
  if high_time > 30 then data1.set (i / 8) (data1.getD (i / 8) 0 ||| 1) else data1

/-- The loop `for (int i = 0; i < 40; i++)` of lines 695-719, with `n = 40 - i`
iterations left.  The result is `none` after the `return false` of a low
separator that timed out, else the filled array and the next sample index. -/
def read_bits (line : Line) : Nat → Nat → Nat → List Nat → Option (List Nat × Nat)
  | 0, _, pos, data => some (data, pos)
  | n + 1, i, pos, data =>
    match wait_while line false 10000 pos with
    | (false, _) => none
    | (true, p1) =>
      let m := measure_high line 100 0 p1
      read_bits line n (i + 1) m.2 (store_bit data i m.1)

/-- Lines 666-692 of `read_dht11_data`: the three bounded waits of the
acknowledgement handshake (line high, then low, then high).  The result is the
next sample index, or `none` when one of them returned `false`. -/
def dht11_handshake (line : Line) : Option Nat :=
  match wait_while line true 10000 0 with
  | (false, _) => none
  | (true, p1) =>
    match wait_while line false 10000 p1 with
    | (false, _) => none
    | (true, p2) =>
      match wait_while line true 10000 p2 with
      | (false, _) => none
      | (true, p3) => some p3

/-- Lines 666-719 of `read_dht11_data`: the handshake and the 40-bit loop.  The
result is the sampled array `data[0..4]` with the number of samples taken, or
`none` when one of the bounded waits returned `false`. -/
def dht11_frame (line : Line) : Option (List Nat × Nat) :=
  match dht11_handshake line with
  | none => none
  | some p3 => read_bits line 40 0 p3 [0, 0, 0, 0, 0]

/-- The values of `high_time` measured by the iterations of the bit loop, in
order, with the next sample index: the loop of `read_bits` without the array. -/
def read_widths (line : Line) : Nat → Nat → Option (List Nat × Nat)
  | 0, pos => some ([], pos)
  | n + 1, pos =>
    match wait_while line false 10000 pos with
    | (false, _) => none
    | (true, p1) =>
      let m := measure_high line 100 0 p1
      match read_widths line n m.2 with
      | none => none
      | some (ws, p) => some (m.1 :: ws, p)

/-- The 40 pulse widths measured by one run of `read_dht11_data` (handshake as
in `dht11_frame`), or `none` when a bounded wait returned `false`. -/
def dht11_widths (line : Line) : Option (List Nat × Nat) :=
  match dht11_handshake line with
  | none => none
  | some p3 => read_widths line 40 p3

/-- Specification side: the value of a bit string read most-significant bit first. -/
def msb_value (bits : List Bool) : Nat := bits.foldl (fun acc b => 2 * acc + b.toNat) 0

/-- Specification side: the five bytes of a 40-bit frame, each assembled
most-significant bit first from its eight bits. -/
def frame_bytes (bits : List Bool) : List Nat :=
  (List.range 5).map (fun j => msb_value ((bits.drop (8 * j)).take 8))

/-- Specification side: the bit a pulse of the given width stands for. -/
def pulse_bit (width : Nat) : Bool := decide (30 < width)

/-- Model of `read_dht11_data`: the returned `bool` and the reading stored in
`config` afterwards. -/
def read_dht11_data (config : app_config_t) (line : Line) : Bool × app_config_t :=
  match dht11_frame line with
  | none => (false, config)
  | some (data, _) =>
    if data.getD 4 0 =
        (data.getD 0 0 + data.getD 1 0 + data.getD 2 0 + data.getD 3 0) &&& 0xFF then
      (true, { config with humidity := data.getD 0 0, temperature := data.getD 2 0 })
    else (false, config)

/-- A line that answers the handshake at once and then sends the given pulses:
each bit is one high sample that ends the low separator followed by `w` high
samples and one low sample. -/
def frameLine (widths : List Nat) : Line :=
  lineOf ([false, true, false] ++
    (widths.map (fun w => true :: (List.replicate w true ++ [false]))).flatten) true

/-! ## C strings -/

/-- The string read from a `char` array: `none` when the array holds no NUL
(the read would run beyond the array). -/
def c_string (buf : List Nat) : Option (List Nat) :=
  if 0 ∈ buf then some (cstr buf) else none

/-- The `n` bytes `strncpy(dst, src, n)` writes: the characters of `src` up to
its NUL, cut at `n`, padded with NULs to `n`. -/
def strncpy_fill : List Nat → Nat → List Nat
  | _, 0 => []
  | [], n + 1 => 0 :: strncpy_fill [] n
  | c :: cs, n + 1 => if c = 0 then List.replicate (n + 1) 0 else c :: strncpy_fill cs n

/-- Model of `strncpy(dst, src, n)`: the new content of the array `dst`, or
`none` when `n` exceeds its size. -/
def strncpy (dst src : List Nat) (n : Nat) : Option (List Nat) :=
  if n ≤ dst.length then some (strncpy_fill src n ++ dst.drop n) else none

/-- Model of `strcpy(dst, src)`: the string of `src` and its NUL are written at
the start of `dst`; `none` when `src` holds no NUL or the copy does not fit. -/
def strcpy (dst src : List Nat) : Option (List Nat) :=
  match c_string src with
  | none => none
  | some str =>
    if str.length + 1 ≤ dst.length then some (str ++ 0 :: dst.drop (str.length + 1)) else none

/-- Model of `strstr(hay, needle)`: the pointer to the first occurrence of
`needle` in the string at `hay`, or `none` for `NULL`. -/
def strstr : List Nat → List Nat → Option (List Nat)
  | [], needle => if needle = [] then some [] else none
  | c :: cs, needle =>
    if needle.isPrefixOf (c :: cs) then some (c :: cs)
    else if c = 0 then none
    else strstr cs needle

/-- Model of `strchr(p, ch)`: the pointer to the first `ch` in the string at
`p`, or `none` for `NULL`. -/
def strchr : List Nat → Nat → Option (List Nat)
  | [], _ => none
  | c :: cs, ch =>
    if c = ch then some (c :: cs)
    else if c = 0 then none
    else strchr cs ch

/-- Model of `isxdigit` on a byte. -/
def isxdigit (c : Nat) : Bool :=
  (48 ≤ c && c ≤ 57) || (65 ≤ c && c ≤ 70) || (97 ≤ c && c ≤ 102)

/-- Lines 407-410 of `url_decode` applied to one hexadecimal digit:
`if (a >= 'a') a -= 'a'-'A'; if (a >= 'A') a -= ('A' - 10); else a -= '0';`. -/
def hex_value (a : Nat) : Nat :=
  let a1 := if a ≥ 97 then a - 32 else a
  if a1 ≥ 65 then a1 - 55 else a1 - 48

/-- The loop of `url_decode` (lines 405-419): the bytes written to `dst` before
the final NUL, reading the string at `src`.  The first argument is the number
of source bytes still to pass over after `src += 3`; `src[1]` and `src[2]` are
the next two bytes (`0` stands for the NUL that ends the string). -/
def url_decode_loop : Nat → List Nat → List Nat
  | _, [] => []
  | skip + 1, _ :: rest => url_decode_loop skip rest
  | 0, c :: rest =>
    if c = 0 then []
    else if c = 37 ∧ rest.getD 0 0 ≠ 0 ∧ rest.getD 1 0 ≠ 0 ∧
        isxdigit (rest.getD 0 0) = true ∧ isxdigit (rest.getD 1 0) = true then
      ((16 * hex_value (rest.getD 0 0) + hex_value (rest.getD 1 0)) % 256) ::
        url_decode_loop 2 rest
    else if c = 43 then 32 :: url_decode_loop 0 rest
    else c :: url_decode_loop 0 rest

/-- Model of `url_decode(dst, src)`: the new content of the array `dst`; `none`
when `src` holds no NUL or the output and its NUL do not fit in `dst`. -/
def url_decode (dst src : List Nat) : Option (List Nat) :=
  if 0 ∈ src then
    let out := url_decode_loop 0 src
    if out.length + 1 ≤ dst.length then some (out ++ 0 :: dst.drop (out.length + 1)) else none
  else none

/-- Model of `isspace` on a byte. -/
def isspace (c : Nat) : Bool := c = 32 || (9 ≤ c && c ≤ 13)

/-- The digit loop of `strtol` in base 10. -/
def atoi_digits : List Nat → Nat → Nat
  | [], acc => acc
  | c :: cs, acc => if 48 ≤ c ∧ c ≤ 57 then atoi_digits cs (10 * acc + (c - 48)) else acc

/-- Saturation of `strtol` to the range of a 32-bit `long`. -/
def clamp_i32 (v : Int) : Int :=
  if v > 2147483647 then 2147483647 else if v < -2147483648 then -2147483648 else v

/-- Model of `atoi` (newlib: `(int) strtol(s, NULL, 10)`): white space, an
optional sign, then decimal digits; `none` when the array holds no NUL. -/
def atoi (buf : List Nat) : Option Int :=
  match c_string buf with
  | none => none
  | some str =>
    let p := str.dropWhile isspace
    if p.head? = some 45 then some (clamp_i32 (-(atoi_digits p.tail 0 : Int)))
    else if p.head? = some 43 then some (clamp_i32 (atoi_digits p.tail 0))
    else some (clamp_i32 (atoi_digits p 0))

/-! ## Non-volatile storage (ESP-IDF `nvs_*`, the environment of the ConfigStore) -/

/-- The ESP-IDF error codes the firmware can see. -/
inductive esp_err_t
  | ESP_OK
  | ESP_FAIL
  | ESP_ERR_NVS_NOT_FOUND
  | ESP_ERR_NVS_INVALID_LENGTH
  | ESP_ERR_NVS_TYPE_MISMATCH
  deriving DecidableEq, Repr

/-- The four keys `NVS_KEY_SSID`, `NVS_KEY_PASSWORD`, `NVS_KEY_RETRIES`,
`NVS_KEY_DELAY` of the namespace `NVS_NAMESPACE`. -/
inductive nvs_key
  | NVS_KEY_SSID
  | NVS_KEY_PASSWORD
  | NVS_KEY_RETRIES
  | NVS_KEY_DELAY
  deriving DecidableEq, Repr

/-- A stored item: a string or a 32-bit integer. -/
inductive nvs_value
  | str (s : List Nat)
  | i32 (v : Int)
  deriving DecidableEq, Repr

/-- The calls on the store that the medium can fail. -/
inductive nvs_call
  | nvs_open (readwrite : Bool)
  | nvs_set (key : nvs_key)
  | nvs_get (key : nvs_key)
  | nvs_erase_all
  | nvs_commit
  deriving DecidableEq, Repr

/-- The flash partition as the firmware sees it: whether the namespace exists,
the items under the four keys, and which calls the medium fails (`faulty`). -/
structure nvs_t where
  namespace_exists : Bool
  entries : nvs_key → Option nvs_value
  faulty : nvs_call → Bool

/-- ESP-IDF `nvs_open`: read-write opening creates the namespace, read-only
opening of a namespace that does not exist is `ESP_ERR_NVS_NOT_FOUND`. -/
def nvs_open (nvs : nvs_t) (readwrite : Bool) : esp_err_t × nvs_t :=
  if nvs.faulty (.nvs_open readwrite) then (.ESP_FAIL, nvs)
  else if readwrite then (.ESP_OK, { nvs with namespace_exists := true })
  else if nvs.namespace_exists then (.ESP_OK, nvs)
  else (.ESP_ERR_NVS_NOT_FOUND, nvs)

/-- Writing one item under a key. -/
def nvs_set (nvs : nvs_t) (key : nvs_key) (v : nvs_value) : esp_err_t × nvs_t :=
  if nvs.faulty (.nvs_set key) then (.ESP_FAIL, nvs)
  else (.ESP_OK, { nvs with entries := fun k => if k = key then some v else nvs.entries k })

/-- ESP-IDF `nvs_set_str(handle, key, value)` with `value` a `char` array:
`none` when the array holds no NUL. -/
def nvs_set_str (nvs : nvs_t) (key : nvs_key) (value : List Nat) :
    Option (esp_err_t × nvs_t) :=
  match c_string value with
  | none => none
  | some str => some (nvs_set nvs key (.str str))

/-- ESP-IDF `nvs_set_i32`. -/
def nvs_set_i32 (nvs : nvs_t) (key : nvs_key) (value : Int) : esp_err_t × nvs_t :=
  nvs_set nvs key (.i32 value)

/-- ESP-IDF `nvs_get_str(handle, key, out, &size)` with `size = sizeof(out)`:
the error code and the new content of `out`, which is written only on
success, with the stored string and its NUL. -/
def nvs_get_str (nvs : nvs_t) (key : nvs_key) (out : List Nat) : esp_err_t × List Nat :=
  if nvs.faulty (.nvs_get key) then (.ESP_FAIL, out)
  else
    match nvs.entries key with
    | none => (.ESP_ERR_NVS_NOT_FOUND, out)
    | some (.i32 _) => (.ESP_ERR_NVS_TYPE_MISMATCH, out)
    | some (.str str) =>
      if str.length + 1 ≤ out.length then (.ESP_OK, str ++ 0 :: out.drop (str.length + 1))
      else (.ESP_ERR_NVS_INVALID_LENGTH, out)

/-- ESP-IDF `nvs_get_i32(handle, key, &out)`: the error code and the new value
of `out`, which is written only on success. -/
def nvs_get_i32 (nvs : nvs_t) (key : nvs_key) (out : Int) : esp_err_t × Int :=
  if nvs.faulty (.nvs_get key) then (.ESP_FAIL, out)
  else
    match nvs.entries key with
    | none => (.ESP_ERR_NVS_NOT_FOUND, out)
    | some (.str _) => (.ESP_ERR_NVS_TYPE_MISMATCH, out)
    | some (.i32 v) => (.ESP_OK, v)

/-- ESP-IDF `nvs_erase_all`: removes every item of the namespace, which itself
stays.  The firmware ignores the returned code. -/
def nvs_erase_all (nvs : nvs_t) : nvs_t :=
  if nvs.faulty .nvs_erase_all then nvs else { nvs with entries := fun _ => none }

/-- ESP-IDF `nvs_commit`. -/
def nvs_commit (nvs : nvs_t) : esp_err_t :=
  if nvs.faulty .nvs_commit then .ESP_FAIL else .ESP_OK

/-! ## Firmware state -/

/-- Radio mode last set with `esp_wifi_set_mode`. -/
inductive wifi_mode_t
  | WIFI_MODE_NULL
  | WIFI_MODE_STA
  | WIFI_MODE_AP
  deriving DecidableEq, Repr

/-- The pages of `html_responses.h` and `html_forms.h`, by name. -/
inductive html_page
  | HTML_CONFIG_FORM
  | HTML_ERROR_PAGE
  | HTML_SAVE_SUCCESS
  | HTML_RESET_SUCCESS
  deriving DecidableEq, Repr

/-- Calls into drivers and services whose effect lies outside the firmware's
memory, recorded in the order they are made. -/
inductive effect_t
  | esp_wifi_connect
  | esp_wifi_stop
  | esp_wifi_start
  | esp_wifi_set_mode (mode : wifi_mode_t)
  | esp_wifi_set_config (ssid password : List Nat)
  | esp_mqtt_client_stop
  | esp_mqtt_client_start
  | httpd_start
  | httpd_stop
  | httpd_resp_send (page : html_page)
  | vTaskDelay_ms (ms : Int)
  | esp_restart
  deriving DecidableEq, Repr

/-- The global variables of the firmware, the flash store and the radio mode,
with the record of driver calls (`effects`, newest first). -/
structure firmware_t where
  config : app_config_t
  mqtt_client : Bool
  wifi_connected : Bool
  mqtt_connected : Bool
  server : Bool
  current_retry_count : Int
  nvs : nvs_t
  wifi_mode : wifi_mode_t
  effects : List effect_t

/-- Records a driver call. -/
def firmware_t.emit (s : firmware_t) (e : effect_t) : firmware_t :=
  { s with effects := e :: s.effects }

/-- The state at the entry of `app_main`: the static initialisers of lines
68-92 over a given flash content. -/
def boot (nvs : nvs_t) : firmware_t where
  config := config_init
  mqtt_client := false
  wifi_connected := false
  mqtt_connected := false
  server := false
  current_retry_count := 0
  nvs := nvs
  wifi_mode := .WIFI_MODE_NULL
  effects := []

/-! ## ConfigStore: `save_wifi_config`, `load_wifi_config`, `clear_wifi_config` -/

/-- Model of `save_wifi_config` (lines 117-174): the returned code and the state
afterwards.  A write that succeeded stays in the store when a later call
fails.  `none` when a string member of `config` holds no NUL. -/
def save_wifi_config (s : firmware_t) : Option (esp_err_t × firmware_t) :=
  let o := nvs_open s.nvs true
  if o.1 ≠ .ESP_OK then some (o.1, { s with nvs := o.2 })
  else
    match nvs_set_str o.2 .NVS_KEY_SSID s.config.wifi_ssid with
    | none => none
    | some r1 =>
      if r1.1 ≠ .ESP_OK then some (r1.1, { s with nvs := r1.2 })
      else
        match nvs_set_str r1.2 .NVS_KEY_PASSWORD s.config.wifi_password with
        | none => none
        | some r2 =>
          if r2.1 ≠ .ESP_OK then some (r2.1, { s with nvs := r2.2 })
          else
            let r3 := nvs_set_i32 r2.2 .NVS_KEY_RETRIES s.config.wifi_max_retries
            if r3.1 ≠ .ESP_OK then some (r3.1, { s with nvs := r3.2 })
            else
              let r4 := nvs_set_i32 r3.2 .NVS_KEY_DELAY s.config.wifi_retry_delay_ms
              if r4.1 ≠ .ESP_OK then some (r4.1, { s with nvs := r4.2 })
              else some (nvs_commit r4.2, { s with nvs := r4.2 })

/-- Model of `load_wifi_config` (lines 176-227): the returned code and the state
afterwards.  Each read writes its member of `config` only when it succeeds; a
missing numeric key is replaced by 5, respectively 1000. -/
def load_wifi_config (s : firmware_t) : esp_err_t × firmware_t :=
  let o := nvs_open s.nvs false
  if o.1 ≠ .ESP_OK then (o.1, s)
  else
    let r1 := nvs_get_str o.2 .NVS_KEY_SSID s.config.wifi_ssid
    if r1.1 ≠ .ESP_OK then (r1.1, s)
    else
      let c1 := { s.config with wifi_ssid := r1.2 }
      let r2 := nvs_get_str o.2 .NVS_KEY_PASSWORD c1.wifi_password
      if r2.1 ≠ .ESP_OK then (r2.1, { s with config := c1 })
      else
        let c2 := { c1 with wifi_password := r2.2 }
        let r3 := nvs_get_i32 o.2 .NVS_KEY_RETRIES c2.wifi_max_retries
        let c3 := { c2 with wifi_max_retries := if r3.1 ≠ .ESP_OK then 5 else r3.2 }
        let r4 := nvs_get_i32 o.2 .NVS_KEY_DELAY c3.wifi_retry_delay_ms
        let c4 := { c3 with wifi_retry_delay_ms := if r4.1 ≠ .ESP_OK then 1000 else r4.2 }
        (.ESP_OK, { s with config := c4 })

/-- Model of `clear_wifi_config` (lines 229-249).  `none` when a `strcpy` of a
default would leave its array. -/
def clear_wifi_config (s : firmware_t) : Option (esp_err_t × firmware_t) :=
  let o := nvs_open s.nvs true
  if o.1 ≠ .ESP_OK then some (o.1, { s with nvs := o.2 })
  else
    let n1 := nvs_erase_all o.2
    let err := nvs_commit n1
    if err = .ESP_OK then
      match strcpy s.config.wifi_ssid s.config.default_ssid with
      | none => none
      | some ssid =>
        match strcpy s.config.wifi_password s.config.default_password with
        | none => none
        | some password =>
          some (err, { s with
            nvs := n1,
            config := { s.config with
              wifi_ssid := ssid, wifi_password := password,
              wifi_max_retries := 5, wifi_retry_delay_ms := 1000 } })
    else some (err, { s with nvs := n1 })

/-- Lines 943-948 of `app_main`: `load_wifi_config` and, when it fails, the copy
of the default SSID and password.  The result carries the code `load` returned. -/
def app_main_load (s : firmware_t) : Option (esp_err_t × firmware_t) :=
  let r := load_wifi_config s
  if r.1 ≠ .ESP_OK then
    match strcpy r.2.config.wifi_ssid r.2.config.default_ssid with
    | none => none
    | some ssid =>
      match strcpy r.2.config.wifi_password r.2.config.default_password with
      | none => none
      | some password =>
        some (r.1, { r.2 with
          config := { r.2.config with wifi_ssid := ssid, wifi_password := password } })
  else some (r.1, r.2)

/-! ## ConnectivityManager: event handlers and mode switches -/

/-- The events `wifi_event_handler` is registered for: every `WIFI_EVENT` and
`IP_EVENT_STA_GOT_IP`. -/
inductive wifi_event_t
  | WIFI_EVENT_STA_START
  | WIFI_EVENT_STA_DISCONNECTED (reason : Nat)
  | IP_EVENT_STA_GOT_IP
  | WIFI_EVENT_OTHER (event_id : Nat)
  deriving DecidableEq, Repr

/-- Model of `wifi_event_handler` (lines 252-288).  `vTaskDelay(ms / portTICK_PERIOD_MS)`
is recorded with its millisecond argument. -/
def wifi_event_handler (s : firmware_t) : wifi_event_t → firmware_t
  | .WIFI_EVENT_STA_START => s.emit .esp_wifi_connect
  | .WIFI_EVENT_STA_DISCONNECTED _ =>
    let s1 := { s with wifi_connected := false, mqtt_connected := false }
    if s1.current_retry_count < s1.config.wifi_max_retries then
      (({ s1 with current_retry_count := s1.current_retry_count + 1 }).emit
        (.vTaskDelay_ms s1.config.wifi_retry_delay_ms)).emit .esp_wifi_connect
    else s1
  | .IP_EVENT_STA_GOT_IP =>
    let s1 := { s with wifi_connected := true, current_retry_count := 0 }
    if s1.mqtt_client then
      ((s1.emit .esp_mqtt_client_stop).emit (.vTaskDelay_ms 1000)).emit .esp_mqtt_client_start
    else s1
  | .WIFI_EVENT_OTHER _ => s

/-- The event ids `mqtt_event_handler` distinguishes. -/
inductive mqtt_event_id_t
  | MQTT_EVENT_BEFORE_CONNECT
  | MQTT_EVENT_CONNECTED
  | MQTT_EVENT_DISCONNECTED
  | MQTT_EVENT_PUBLISHED
  | MQTT_EVENT_ERROR
  | MQTT_EVENT_OTHER
  deriving DecidableEq, Repr

/-- Model of `mqtt_event_handler` (lines 291-324). -/
def mqtt_event_handler (s : firmware_t) : mqtt_event_id_t → firmware_t
  | .MQTT_EVENT_CONNECTED => { s with mqtt_connected := true }
  | .MQTT_EVENT_DISCONNECTED => { s with mqtt_connected := false }
  | .MQTT_EVENT_ERROR => { s with mqtt_connected := false }
  | _ => s

/-- Model of `wifi_connect_sta` (lines 347-368); the driver calls under
`ESP_ERROR_CHECK` succeed. -/
def wifi_connect_sta (s : firmware_t) : firmware_t :=
  let s1 := { s with wifi_connected := false, mqtt_connected := false, current_retry_count := 0 }
  let s2 := (s1.emit .esp_wifi_stop).emit (.vTaskDelay_ms 500)
  let s3 := ({ s2 with wifi_mode := .WIFI_MODE_STA }).emit (.esp_wifi_set_mode .WIFI_MODE_STA)
  (s3.emit (.esp_wifi_set_config (strncpy_fill s.config.wifi_ssid 31 ++ [0])
    (strncpy_fill s.config.wifi_password 63 ++ [0]))).emit .esp_wifi_start

/-- Model of `wifi_start_ap` (lines 371-394); the driver calls under
`ESP_ERROR_CHECK` succeed. -/
def wifi_start_ap (s : firmware_t) : firmware_t :=
  let s2 := (s.emit .esp_wifi_stop).emit (.vTaskDelay_ms 500)
  let s3 := ({ s2 with wifi_mode := .WIFI_MODE_AP }).emit (.esp_wifi_set_mode .WIFI_MODE_AP)
  (s3.emit (.esp_wifi_set_config (strncpy_fill s.config.ap_ssid 31 ++ [0])
    (strncpy_fill s.config.ap_password 63 ++ [0]))).emit .esp_wifi_start

/-- Model of `start_webserver` (lines 525-549); `httpd_ok` says whether
`httpd_start` returns `ESP_OK`. -/
def start_webserver (httpd_ok : Bool) (s : firmware_t) : firmware_t :=
  if s.server then s
  else if httpd_ok then ({ s with server := true }).emit .httpd_start
  else s

/-- Model of `stop_webserver` (lines 551-557). -/
def stop_webserver (s : firmware_t) : firmware_t :=
  if s.server then ({ s with server := false }).emit .httpd_stop else s

/-- An event delivered by the event task: a link event or a broker event. -/
inductive sys_event_t
  | wifi (e : wifi_event_t)
  | mqtt (e : mqtt_event_id_t)
  deriving DecidableEq, Repr

/-- The handler the event task runs for an event. -/
def on_event (s : firmware_t) : sys_event_t → firmware_t
  | .wifi e => wifi_event_handler s e
  | .mqtt e => mqtt_event_handler s e

/-- The events delivered while the application task sleeps in one `vTaskDelay`. -/
def deliver (s : firmware_t) (batch : List sys_event_t) : firmware_t :=
  batch.foldl on_event s

/-- The loop of `wait_for_connection` (lines 849-861) from the value `waited`,
with the batches of events delivered during its successive 100 ms delays.  The
first argument bounds the number of iterations; `none` when it is used up. -/
def wait_for_connection_loop (check_wifi check_mqtt : Bool) (timeout_ms : Int) :
    Nat → Int → List (List sys_event_t) → firmware_t →
      Option (Bool × firmware_t × List (List sys_event_t))
  | 0, _, _, _ => none
  | fuel + 1, waited, sched, s =>
    if waited < timeout_ms then
      let connected1 := if check_wifi && !s.wifi_connected then false else true
      let connected := if check_mqtt && !s.mqtt_connected then false else connected1
      if connected then some (true, s, sched)
      else
        wait_for_connection_loop check_wifi check_mqtt timeout_ms fuel (waited + 100)
          sched.tail (deliver s (sched.headD []))
    else some (false, s, sched)

/-- Model of `wait_for_connection(check_wifi, check_mqtt, timeout_ms)`. -/
def wait_for_connection (check_wifi check_mqtt : Bool) (timeout_ms : Int)
    (sched : List (List sys_event_t)) (s : firmware_t) :
    Option (Bool × firmware_t × List (List sys_event_t)) :=
  wait_for_connection_loop check_wifi check_mqtt timeout_ms (timeout_ms.toNat / 100 + 2) 0 sched s

/-- Lines 971-974 of `app_main` (also 995-997): the switch to the provisioning
mode, `wifi_start_ap(); start_webserver();`. -/
def enter_ap_mode (httpd_ok : Bool) (s : firmware_t) : firmware_t :=
  start_webserver httpd_ok (wifi_start_ap s)

/-- The number of `esp_wifi_connect()` calls made so far. -/
def join_requests (s : firmware_t) : Nat := s.effects.count .esp_wifi_connect

/-- Handling a sequence of link events in order. -/
def handle_events (s : firmware_t) (es : List wifi_event_t) : firmware_t :=
  es.foldl wifi_event_handler s

/-! ## Provisioning handlers -/

/-- A `char` array of the given size declared with `= {0}`. -/
def zeros (n : Nat) : List Nat := List.replicate n 0

/-- Lines 445-449 of `save_config_handler`: the array `ssid` after
`if (ssid_end) strncpy(ssid, ssid_start, ssid_end - ssid_start);` (there is no
`else`), with `ssid_start` already advanced past `ssid=`. -/
def extract_ssid (ssid_start : List Nat) : Option (List Nat) :=
  match strchr ssid_start 38 with
  | some ssid_end => strncpy (zeros 32) ssid_start (ssid_start.length - ssid_end.length)
  | none => some (zeros 32)

/-- The common shape of lines 452-459, 462-468 and 471-477: the array of the
given size after `strncpy(buf, start, end - start)` when an `&` follows and
after `strncpy(buf, start, sizeof(buf) - 1)` otherwise. -/
def extract_field (size : Nat) (start : List Nat) : Option (List Nat) :=
  match strchr start 38 with
  | some fin => strncpy (zeros size) start (start.length - fin.length)
  | none => strncpy (zeros size) start (size - 1)

/-- Model of `save_config_handler` (lines 423-509) for the bytes `recv` that
`httpd_req_recv` delivers (an empty list stands for `ret <= 0`).  The result is
the returned code and the state at the point the function leaves or calls
`esp_restart`; `none` when a copy leaves its array or a string read meets no NUL. -/
def save_config_handler (recv : List Nat) (s : firmware_t) : Option (esp_err_t × firmware_t) :=
  if recv.length = 0 then some (.ESP_FAIL, s.emit (.httpd_resp_send .HTML_ERROR_PAGE))
  else
    let content := recv.take 255 ++ [0]
    match strstr content (bytes "ssid="), strstr content (bytes "password="),
        strstr content (bytes "retries="), strstr content (bytes "delay=") with
    | some ssid_start, some pass_start, some retries_start, some delay_start => do
      let ssid ← extract_ssid (ssid_start.drop 5)
      let password ← extract_field 64 (pass_start.drop 9)
      let retries_str ← extract_field 10 (retries_start.drop 8)
      let delay_str ← extract_field 10 (delay_start.drop 6)
      let decoded_ssid ← url_decode (zeros 32) ssid
      let decoded_password ← url_decode (zeros 64) password
      let wifi_ssid ← strncpy s.config.wifi_ssid decoded_ssid 31
      let wifi_password ← strncpy s.config.wifi_password decoded_password 63
      let retries ← atoi retries_str
      let delay ← atoi delay_str
      let s1 := { s with config := { s.config with
        wifi_ssid := wifi_ssid, wifi_password := wifi_password,
        wifi_max_retries := retries, wifi_retry_delay_ms := delay } }
      let r ← save_wifi_config s1
      some (.ESP_OK, ((r.2.emit (.httpd_resp_send .HTML_SAVE_SUCCESS)).emit
        (.vTaskDelay_ms 3000)).emit .esp_restart)
    | _, _, _, _ => some (.ESP_OK, s.emit (.httpd_resp_send .HTML_ERROR_PAGE))

/-- Model of `reset_config_handler` (lines 511-522). -/
def reset_config_handler (s : firmware_t) : Option (esp_err_t × firmware_t) := do
  let r ← clear_wifi_config s
  some (.ESP_OK, ((r.2.emit (.httpd_resp_send .HTML_RESET_SUCCESS)).emit
    (.vTaskDelay_ms 3000)).emit .esp_restart)

/-- What `esp_restart()` leads to: the static initialisers again, over the
flash content of the moment. -/
def reboot (s : firmware_t) : firmware_t := boot s.nvs

/-! ## Reachable states -/

/-- The steps that change the connectivity state or the configuration. -/
inductive op_t
  | event (e : sys_event_t)
  | station_entry
  | config_load
  | post_save (recv : List Nat)
  | post_reset
  | restart

/-- One step; `none` when the step has undefined behaviour. -/
def step (s : firmware_t) : op_t → Option firmware_t
  | .event e => some (on_event s e)
  | .station_entry => some (wifi_connect_sta s)
  | .config_load => (app_main_load s).map (fun r => r.2)
  | .post_save recv => (save_config_handler recv s).map (fun r => r.2)
  | .post_reset => (reset_config_handler s).map (fun r => r.2)
  | .restart => some (reboot s)

/-- A sequence of steps. -/
def run (s : firmware_t) : List op_t → Option firmware_t
  | [] => some s
  | op :: ops =>
    match step s op with
    | none => none
    | some s1 => run s1 ops

/-! ## Auxiliary and specification-side notions -/

/-- Pushing a list of pulse widths through `store_bit` from bit index `i` on. -/
def store_bits (data : List Nat) : Nat → List Nat → List Nat
  | _, [] => data
  | i, w :: ws => store_bits (store_bit data i w) (i + 1) ws

/-- The shifts of one byte with the truncation to `uint8_t` written out. -/
def shift_in (x : Nat) (bits : List Bool) : Nat :=
  bits.foldl (fun acc b => (2 * acc) % 256 + b.toNat) x

/-- An event that is not the address-acquired event. -/
def not_join : sys_event_t → Bool
  | .wifi .IP_EVENT_STA_GOT_IP => false
  | _ => true

/-- The steps that belong to the connectivity state machine: events and entries
into station mode. -/
def connectivity_op : op_t → Bool
  | .event _ => true
  | .station_entry => true
  | _ => false

/-- The shape every reachable `config` has: the arrays `wifi_ssid` and
`wifi_password` have their declared sizes and a NUL last byte, and the default
credentials are the compiled-in ones. -/
def config_wf (c : app_config_t) : Prop :=
  c.wifi_ssid.length = 32 ∧ c.wifi_ssid.getD 31 1 = 0 ∧
  c.wifi_password.length = 64 ∧ c.wifi_password.getD 63 1 = 0 ∧
  c.default_ssid = c_array 32 "SBC" ∧ c.default_password = c_array 64 "SBCwifi$"

instance (c : app_config_t) : Decidable (config_wf c) := by
  unfold config_wf; infer_instance

/-- A `POST /save` body with the four fields in the order of the form. -/
def form_body (S P R D : List Nat) : List Nat :=
  bytes "ssid=" ++ S ++ bytes "&password=" ++ P ++ bytes "&retries=" ++ R ++
    bytes "&delay=" ++ D

/-- Specification side: the value of a decimal numeral given by its ASCII digits. -/
def decimal_value (ds : List Nat) : Nat := Nat.ofDigits 10 ((ds.map (fun c => c - 48)).reverse)

/-! ## Sample inputs and states -/

/-- A flash partition never written, with a medium that does not fail. -/
def nvs_blank : nvs_t where
  namespace_exists := false
  entries := fun _ => none
  faulty := fun _ => false

/-- The body of the provisioning scenario of the specification. -/
def body_home : List Nat := bytes "ssid=Home&password=Secret1&retries=3&delay=500"

/-- Pulse widths of a frame with bytes `1, 0, 2, 0, 3` (checksum correct). -/
def widths_good : List Nat :=
  List.replicate 7 0 ++ [31] ++ List.replicate 14 0 ++ [31] ++ List.replicate 15 0 ++ [31, 31]

/-- Pulse widths of a frame with bytes `1, 0, 2, 0, 2` (checksum wrong). -/
def widths_bad : List Nat :=
  List.replicate 7 0 ++ [31] ++ List.replicate 14 0 ++ [31] ++ List.replicate 15 0 ++ [31, 0]

/-- The state after `wifi_connect_sta` on a first boot: joining, counter 0,
`wifi_max_retries = 5`. -/
def joining_state : firmware_t := wifi_connect_sta (boot nvs_blank)

/-- The state after the address-acquired event that follows: joined. -/
def joined_state : firmware_t := wifi_event_handler joining_state .IP_EVENT_STA_GOT_IP

/-- A state holding the configuration of the specification's scenario:
ssid `Home`, password `Secret1`, 3 retries, 500 ms. -/
def home_state : firmware_t :=
  { boot nvs_blank with config := { config_init with
      wifi_ssid := c_array 32 "Home", wifi_password := c_array 64 "Secret1",
      wifi_max_retries := 3, wifi_retry_delay_ms := 500 } }

/-- The result of `save_wifi_config` in `home_state`. -/
def home_saved : esp_err_t × firmware_t :=
  (save_wifi_config home_state).getD (.ESP_FAIL, home_state)

/-- The state in which `save_config_handler` calls `esp_restart` after the body
of the specification's scenario, on a first boot. -/
def provisioned_state : firmware_t :=
  ((save_config_handler body_home (boot nvs_blank)).getD (.ESP_FAIL, boot nvs_blank)).2

/-- The result of `clear_wifi_config` in that state. -/
def home_cleared : esp_err_t × firmware_t :=
  (clear_wifi_config provisioned_state).getD (.ESP_FAIL, provisioned_state)

/-! ## Sample counts of the decoder -/

/-- The sample index at which the bit loop of `read_dht11_data` is left, by
completion or by the `return false` of a low separator: the loop of `read_bits`
followed for the samples only. -/
def read_bits_end (line : Line) : Nat → Nat → Nat
  | 0, pos => pos
  | n + 1, pos =>
    match wait_while line false 10000 pos with
    | (false, p) => p
    | (true, p1) => read_bits_end line n (measure_high line 100 0 p1).2

/-- The number of calls of `gpio_get_level` made by one run of
`read_dht11_data`, whichever way it returns. -/
def dht11_samples (line : Line) : Nat :=
  match wait_while line true 10000 0 with
  | (false, p) => p
  | (true, p1) =>
    match wait_while line false 10000 p1 with
    | (false, p) => p
    | (true, p2) =>
      match wait_while line true 10000 p2 with
      | (false, p) => p
      | (true, p3) => read_bits_end line 40 p3

/-! ## TelemetryPublisher: `send_dht11_data` -/

/-- The arguments of one `esp_mqtt_client_publish(client, topic, data, len, qos, retain)`
call; the payload built by `create_telemetry_json` is carried by its two numbers. -/
structure mqtt_publish_t where
  topic : List Nat
  temperature : Nat
  humidity : Nat
  len : Int
  qos : Int
  retain : Int
  deriving DecidableEq, Repr

/-- Model of `send_dht11_data` (lines 795-840): the state afterwards and the
publish call made, if any.  `json_ok` says whether `create_telemetry_json`
returns a string. -/
def send_dht11_data (json_ok : Bool) (s : firmware_t) : firmware_t × Option mqtt_publish_t :=
  if !s.mqtt_connected then (s, none)
  else if !s.wifi_connected then (s, none)
  else if !json_ok then (s, none)
  else (s, some
    { topic := s.config.mqtt_telemetry_topic,
      temperature := s.config.temperature,
      humidity := s.config.humidity,
      len := 0, qos := 0, retain := 10000 })

/-! ## Percent-decoding, specification side -/

/-- Specification side: the value of a hexadecimal digit, upper or lower case. -/
def hex_digit (c : Nat) : Option Nat :=
  if 48 ≤ c ∧ c ≤ 57 then some (c - 48)
  else if 65 ≤ c ∧ c ≤ 70 then some (c - 65 + 10)
  else if 97 ≤ c ∧ c ≤ 102 then some (c - 97 + 10)
  else none

/-- Specification side: percent-decoding of a string scanned left to right.  A
`%` followed by two hexadecimal digits gives one byte, a `+` gives a space,
every other byte is copied. -/
def percent_decode : List Nat → List Nat
  | [] => []
  | c :: rest =>
    if c = 37 then
      match hex_digit (rest.getD 0 0), hex_digit (rest.getD 1 0) with
      | some a, some b => (16 * a + b) :: percent_decode (rest.drop 2)
      | _, _ => 37 :: percent_decode rest
    else if c = 43 then 32 :: percent_decode rest
    else c :: percent_decode rest
termination_by l => l.length
decreasing_by
  all_goals simp_wf
  all_goals omega

/-! ## Sample request bodies and stores for the provisioning handler -/

/-- A body whose `ssid` value has 40 bytes. -/
def body_long_ssid : List Nat :=
  bytes "ssid=" ++ List.replicate 40 65 ++ bytes "&password=b&retries=1&delay=1"

/-- A body with a negative retry count. -/
def body_negative : List Nat := bytes "ssid=a&password=b&retries=-1&delay=0"

/-- The fields of `body_home` with `ssid` in last position. -/
def body_ssid_last : List Nat := bytes "password=Secret1&retries=3&delay=500&ssid=Home"

/-- A blank store whose read-write `nvs_open` fails. -/
def nvs_open_fails : nvs_t where
  namespace_exists := false
  entries := fun _ => none
  faulty := fun c => decide (c = .nvs_open true)

/-- A store that holds an SSID, a password and a retry delay but no retry count. -/
def nvs_no_retries : nvs_t where
  namespace_exists := true
  entries := fun k =>
    match k with
    | .NVS_KEY_SSID => some (.str (bytes "Home"))
    | .NVS_KEY_PASSWORD => some (.str (bytes "Secret1"))
    | .NVS_KEY_RETRIES => none
    | .NVS_KEY_DELAY => some (.i32 500)
  faulty := fun _ => false

/-! # Theorems -/

/-! ## Decoder -/

theorem shl_mod_or_one (x : Nat) : ((x <<< 1) % 256) ||| 1 = (2 * x) % 256 + 1 := by
  have h2 : (x <<< 1) % 256 = 2 * (x % 128) := by
    rw [Nat.shiftLeft_eq]; omega
  have h3 : (2 * x) % 256 = 2 * (x % 128) := by omega
  rw [h2, h3]
  have key : ∀ y, y < 128 → (2 * y) ||| 1 = 2 * y + 1 := by decide
  exact key _ (Nat.mod_lt _ (by norm_num))

/-- The array update of one bit in arithmetic form: the byte is doubled modulo
256 and the decoded bit is added. -/
theorem store_bit_eq (data : List Nat) (i w : Nat) :
    store_bit data i w =
      data.set (i / 8) ((2 * data.getD (i / 8) 0) % 256 + (pulse_bit w).toNat) := by
  unfold store_bit pulse_bit
  by_cases hw : 30 < w
  · by_cases hi : i / 8 < data.length
    · simp [hw, List.getD_eq_getElem?_getD, List.getElem?_set, hi, shl_mod_or_one]
    · have hle : data.length ≤ i / 8 := Nat.le_of_not_lt hi
      simp [hw, List.set_eq_of_length_le hle]
  · have h1 : ¬ w > 30 := hw
    simp [hw, Nat.shiftLeft_eq, Nat.mul_comm]

theorem read_bits_eq_widths (line : Line) (n : Nat) :
    ∀ (i pos : Nat) (data : List Nat),
      read_bits line n i pos data =
        (read_widths line n pos).map (fun r => (store_bits data i r.1, r.2)) := by
  induction n with
  | zero => intro i pos data; simp [read_bits, read_widths, store_bits]
  | succ n ih =>
    intro i pos data
    simp only [read_bits, read_widths]
    rcases hw : wait_while line false 10000 pos with ⟨ok, p1⟩
    cases ok
    · simp
    · simp only [ih]
      cases hr : read_widths line n (measure_high line 100 0 p1).2 with
      | none => simp
      | some r => simp [store_bits]

theorem read_widths_length (line : Line) (n : Nat) :
    ∀ (pos : Nat) (ws : List Nat) (p : Nat),
      read_widths line n pos = some (ws, p) → ws.length = n := by
  induction n with
  | zero => intro pos ws p h; simp [read_widths] at h; simp [h.1]
  | succ n ih =>
    intro pos ws p h
    simp only [read_widths] at h
    rcases hw : wait_while line false 10000 pos with ⟨ok, p1⟩
    rw [hw] at h
    cases ok
    · simp at h
    · cases hr : read_widths line n (measure_high line 100 0 p1).2 with
      | none => simp [hr] at h
      | some r =>
        obtain ⟨ws1, p2⟩ := r
        simp [hr] at h
        have := ih _ _ _ hr
        rw [← h.1]; simp [this]

theorem dht11_frame_eq_widths (line : Line) :
    dht11_frame line =
      (dht11_widths line).map (fun r => (store_bits [0, 0, 0, 0, 0] 0 r.1, r.2)) := by
  unfold dht11_frame dht11_widths
  cases dht11_handshake line with
  | none => simp
  | some p3 => simp [read_bits_eq_widths]

theorem dht11_widths_length (line : Line) (ws : List Nat) (p : Nat)
    (h : dht11_widths line = some (ws, p)) : ws.length = 40 := by
  unfold dht11_widths at h
  cases hh : dht11_handshake line with
  | none => simp [hh] at h
  | some p3 =>
    simp only [hh] at h
    exact read_widths_length line 40 _ _ _ h

theorem store_bits_append (a b : List Nat) :
    ∀ (data : List Nat) (i : Nat),
      store_bits data i (a ++ b) = store_bits (store_bits data i a) (i + a.length) b := by
  induction a with
  | nil => intro data i; simp [store_bits]
  | cons w a ih =>
    intro data i
    show store_bits (store_bit data i w) (i + 1) (a ++ b) = _
    rw [ih]
    simp only [store_bits, List.length_cons]
    rw [show i + 1 + a.length = i + (a.length + 1) by omega]

theorem store_bits_one_byte (ws : List Nat) :
    ∀ (pre post : List Nat) (x k : Nat), k + ws.length ≤ 8 →
      store_bits (pre ++ x :: post) (8 * pre.length + k) ws =
        pre ++ shift_in x (ws.map pulse_bit) :: post := by
  induction ws with
  | nil => intro pre post x k _; simp [store_bits, shift_in]
  | cons w ws ih =>
    intro pre post x k hk
    simp only [List.length_cons] at hk
    have hdiv : (8 * pre.length + k) / 8 = pre.length := by omega
    have hstep : store_bit (pre ++ x :: post) (8 * pre.length + k) w =
        pre ++ ((2 * x) % 256 + (pulse_bit w).toNat) :: post := by
      rw [store_bit_eq, hdiv]
      have hget : (pre ++ x :: post).getD pre.length 0 = x := by
        rw [List.getD_eq_getElem?_getD, List.getElem?_append_right (Nat.le_refl _)]
        simp
      rw [hget]
      simp
    simp only [store_bits, hstep]
    have := ih pre post ((2 * x) % 256 + (pulse_bit w).toNat) (k + 1) (by omega)
    rw [show 8 * pre.length + k + 1 = 8 * pre.length + (k + 1) by omega, this]
    simp [shift_in]

theorem length_eq_eight {α : Type} (l : List α) (h : l.length = 8) :
    ∃ a b c d e f g i, l = [a, b, c, d, e, f, g, i] := by
  match l, h with
  | [a, b, c, d, e, f, g, i], _ => exact ⟨a, b, c, d, e, f, g, i, rfl⟩

theorem shift_in_eight (bits : List Bool) (h : bits.length = 8) :
    shift_in 0 bits = msb_value bits := by
  obtain ⟨a, b, c, d, e, f, g, i, rfl⟩ := length_eq_eight bits h
  revert a b c d e f g i
  decide

theorem store_bits_frame (ws : List Nat) (h : ws.length = 40) :
    store_bits [0, 0, 0, 0, 0] 0 ws = frame_bytes (ws.map pulse_bit) := by
  have hb : ∀ (pre post l : List Nat), l.length = 8 → 
      store_bits (pre ++ 0 :: post) (8 * pre.length) l =
        pre ++ msb_value (l.map pulse_bit) :: post := by
    intro pre post l hl
    have := store_bits_one_byte l pre post 0 0 (by omega)
    rw [Nat.add_zero] at this
    rw [this, shift_in_eight _ (by simpa using hl)]
  have e1 : ws = ws.take 8 ++ ((ws.drop 8).take 8 ++ ((ws.drop 16).take 8 ++
      ((ws.drop 24).take 8 ++ (ws.drop 32).take 8))) := by
    have h5 : (ws.drop 32).take 8 = ws.drop 32 := List.take_of_length_le (by simp; omega)
    rw [h5]
    have h4 : (ws.drop 24).take 8 ++ ws.drop 32 = ws.drop 24 := by
      have := List.take_append_drop 8 (ws.drop 24)
      simpa using this
    rw [h4]
    have h3 : (ws.drop 16).take 8 ++ ws.drop 24 = ws.drop 16 := by
      have := List.take_append_drop 8 (ws.drop 16)
      simpa using this
    rw [h3]
    have h2 : (ws.drop 8).take 8 ++ ws.drop 16 = ws.drop 8 := by
      have := List.take_append_drop 8 (ws.drop 8)
      simpa using this
    rw [h2, List.take_append_drop]
  have l0 : (ws.take 8).length = 8 := by simp; omega
  have l1 : ((ws.drop 8).take 8).length = 8 := by simp; omega
  have l2 : ((ws.drop 16).take 8).length = 8 := by simp; omega
  have l3 : ((ws.drop 24).take 8).length = 8 := by simp; omega
  have l4 : ((ws.drop 32).take 8).length = 8 := by simp; omega
  have r0 := hb [] [0, 0, 0, 0] _ l0
  have r1 := hb [msb_value ((ws.take 8).map pulse_bit)] [0, 0, 0] _ l1
  have r2 := hb [msb_value ((ws.take 8).map pulse_bit),
    msb_value (((ws.drop 8).take 8).map pulse_bit)] [0, 0] _ l2
  have r3 := hb [msb_value ((ws.take 8).map pulse_bit),
    msb_value (((ws.drop 8).take 8).map pulse_bit),
    msb_value (((ws.drop 16).take 8).map pulse_bit)] [0] _ l3
  have r4 := hb [msb_value ((ws.take 8).map pulse_bit),
    msb_value (((ws.drop 8).take 8).map pulse_bit),
    msb_value (((ws.drop 16).take 8).map pulse_bit),
    msb_value (((ws.drop 24).take 8).map pulse_bit)] [] _ l4
  simp only [List.nil_append, List.length_nil, List.cons_append, List.length_cons,
    List.length_singleton, Nat.mul_zero] at r0 r1 r2 r3 r4
  norm_num at r1 r2 r3 r4
  simp only [List.map_take] at r0
  conv_lhs => rw [e1]
  simp only [store_bits_append, l0, l1, l2, l3, r0, r1, r2, r3, r4, Nat.zero_add]
  simp [frame_bytes, List.range, List.range.loop]

theorem msb_value_eight_lt (bits : List Bool) (h : bits.length = 8) : msb_value bits < 256 := by
  obtain ⟨a, b, c, d, e, f, g, i, rfl⟩ := length_eq_eight bits h
  revert a b c d e f g i
  decide

theorem frame_bytes_lt (bits : List Bool) (h : bits.length = 40) (j : Nat) :
    (frame_bytes bits).getD j 0 < 256 := by
  have l0 : (bits.take 8).length = 8 := by simp; omega
  have l1 : ((bits.drop 8).take 8).length = 8 := by simp; omega
  have l2 : ((bits.drop 16).take 8).length = 8 := by simp; omega
  have l3 : ((bits.drop 24).take 8).length = 8 := by simp; omega
  have l4 : ((bits.drop 32).take 8).length = 8 := by simp; omega
  have b0 := msb_value_eight_lt _ l0
  have b1 := msb_value_eight_lt _ l1
  have b2 := msb_value_eight_lt _ l2
  have b3 := msb_value_eight_lt _ l3
  have b4 := msb_value_eight_lt _ l4
  match j with
  | 0 => simpa [frame_bytes, List.range, List.range.loop] using b0
  | 1 => simpa [frame_bytes, List.range, List.range.loop] using b1
  | 2 => simpa [frame_bytes, List.range, List.range.loop] using b2
  | 3 => simpa [frame_bytes, List.range, List.range.loop] using b3
  | 4 => simpa [frame_bytes, List.range, List.range.loop] using b4
  | j + 5 => simp [frame_bytes, List.range, List.range.loop]

/-- A completed run of the sampling loops yields the most-significant-bit-first
bytes of the decoded pulses. -/
theorem dht11_frame_of_widths (line : Line) (widths : List Nat) (n : Nat)
    (h : dht11_widths line = some (widths, n)) :
    dht11_frame line = some (frame_bytes (widths.map pulse_bit), n) := by
  rw [dht11_frame_eq_widths, h]
  simp [store_bits_frame widths (dht11_widths_length line widths n h)]

theorem measure_high_le (line : Line) (fuel : Nat) :
    ∀ (high_time pos : Nat), (measure_high line fuel high_time pos).1 ≤ high_time + fuel := by
  induction fuel with
  | zero => intro h pos; simp [measure_high]
  | succ fuel ih =>
    intro h pos
    simp only [measure_high]
    split
    · have := ih (h + 1) (pos + 1); omega
    · simp

theorem measure_high_stuck (line : Line) (fuel : Nat) :
    ∀ (high_time pos : Nat), high_time + fuel ≤ 100 →
      (∀ k, k < fuel → line (pos + k) = true) →
      (measure_high line fuel high_time pos).1 = high_time + fuel := by
  induction fuel with
  | zero => intro h pos _ _; simp [measure_high]
  | succ fuel ih =>
    intro h pos hle hline
    simp only [measure_high]
    have h0 : line pos = true := by simpa using hline 0 (by omega)
    have hlt : h < 100 := by omega
    rw [if_pos ⟨h0, hlt⟩]
    rw [ih (h + 1) (pos + 1) (by omega)]
    · omega
    · intro k hk
      have := hline (k + 1) (by omega)
      rwa [show pos + 1 + k = pos + (k + 1) by omega]

/-- C1. Whenever the sampling loops of `read_dht11_data` complete, the array
`data[0..4]` holds the 40 decoded bits assembled most-significant bit first; if
`data[4]` equals `(data[0]+data[1]+data[2]+data[3]) mod 256` the function returns
`true` and the stored reading is `humidity = data[0]`, `temperature = data[2]`,
both below 256, whatever `data[1]` and `data[3]` are. -/
theorem C1_checksum_match_stores_reading (config : app_config_t) (line : Line)
    (widths : List Nat) (n : Nat)
    (hframe : dht11_widths line = some (widths, n))
    (hsum : (frame_bytes (widths.map pulse_bit)).getD 4 0 =
      ((frame_bytes (widths.map pulse_bit)).getD 0 0 +
        (frame_bytes (widths.map pulse_bit)).getD 1 0 +
        (frame_bytes (widths.map pulse_bit)).getD 2 0 +
        (frame_bytes (widths.map pulse_bit)).getD 3 0) % 256) :
    dht11_frame line = some (frame_bytes (widths.map pulse_bit), n) ∧
    read_dht11_data config line =
      (true, { config with
        humidity := (frame_bytes (widths.map pulse_bit)).getD 0 0,
        temperature := (frame_bytes (widths.map pulse_bit)).getD 2 0 }) ∧
    (frame_bytes (widths.map pulse_bit)).getD 0 0 < 256 ∧
    (frame_bytes (widths.map pulse_bit)).getD 2 0 < 256 := by
  have hlen : (widths.map pulse_bit).length = 40 := by
    simpa using dht11_widths_length line widths n hframe
  have hf := dht11_frame_of_widths line widths n hframe
  refine ⟨hf, ?_, frame_bytes_lt _ hlen 0, frame_bytes_lt _ hlen 2⟩
  unfold read_dht11_data
  rw [hf]
  have hmask : ∀ x : Nat, x &&& 0xFF = x % 256 := fun x =>
    Nat.and_pow_two_sub_one_eq_mod x 8
  simp only [hmask]
  rw [if_pos hsum]

/-- C2. Whenever the sampling loops complete with a checksum byte `data[4]` that
differs from the low 8 bits of `data[0]+data[1]+data[2]+data[3]`, the function
returns `false` and `config`, with the stored temperature and humidity, is
unchanged. -/
theorem C2_checksum_mismatch_keeps_reading (config : app_config_t) (line : Line)
    (widths : List Nat) (n : Nat)
    (hframe : dht11_widths line = some (widths, n))
    (hsum : (frame_bytes (widths.map pulse_bit)).getD 4 0 ≠
      ((frame_bytes (widths.map pulse_bit)).getD 0 0 +
        (frame_bytes (widths.map pulse_bit)).getD 1 0 +
        (frame_bytes (widths.map pulse_bit)).getD 2 0 +
        (frame_bytes (widths.map pulse_bit)).getD 3 0) % 256) :
    read_dht11_data config line = (false, config) := by
  have hf := dht11_frame_of_widths line widths n hframe
  unfold read_dht11_data
  rw [hf]
  have hmask : ∀ x : Nat, x &&& 0xFF = x % 256 := fun x =>
    Nat.and_pow_two_sub_one_eq_mod x 8
  simp only [hmask]
  rw [if_neg hsum]

/-- C3. The bit shifted into `data[i/8]` by iteration `i` depends on the measured
width only through the comparison with 30: it is 0 for every width `<= 30` (so
for 30) and 1 for every width `> 30` (so for 31 and for 100); the other bytes
keep their values; a measured width never exceeds 100 and is exactly 100 when
the line stays high for 100 samples. -/
theorem C3_pulse_width_threshold (data : List Nat) (i w : Nat) (line : Line) (pos : Nat)
    (hi : i < 40) (hd : data.length = 5) :
    (store_bit data i w).getD (i / 8) 0 =
      (2 * data.getD (i / 8) 0) % 256 + (if w ≤ 30 then 0 else 1) ∧
    (w ≤ 30 → (store_bit data i w).getD (i / 8) 0 % 2 = 0) ∧
    (30 < w → (store_bit data i w).getD (i / 8) 0 % 2 = 1) ∧
    (store_bit data i 30).getD (i / 8) 0 % 2 = 0 ∧
    (store_bit data i 31).getD (i / 8) 0 % 2 = 1 ∧
    (store_bit data i 100).getD (i / 8) 0 % 2 = 1 ∧
    (∀ j, j ≠ i / 8 → (store_bit data i w).getD j 0 = data.getD j 0) ∧
    (measure_high line 100 0 pos).1 ≤ 100 ∧
    ((∀ k, k < 100 → line (pos + k) = true) → (measure_high line 100 0 pos).1 = 100) := by
  have hlt : i / 8 < data.length := by omega
  have key : ∀ w', (store_bit data i w').getD (i / 8) 0 =
      (2 * data.getD (i / 8) 0) % 256 + (if w' ≤ 30 then 0 else 1) := by
    intro w'
    rw [store_bit_eq]
    simp only [List.getD_eq_getElem?_getD, List.getElem?_set_self hlt, Option.getD_some]
    unfold pulse_bit
    by_cases h : w' ≤ 30
    · have : ¬ 30 < w' := by omega
      simp [h, this]
    · have : 30 < w' := by omega
      simp [h, this]
  refine ⟨key w, ?_, ?_, ?_, ?_, ?_, ?_, ?_, ?_⟩
  · intro h; rw [key, if_pos h]; omega
  · intro h; rw [key, if_neg (by omega)]; omega
  · rw [key]; simp; omega
  · rw [key]; simp; omega
  · rw [key]; simp; omega
  · intro j hj
    rw [store_bit_eq]
    simp only [List.getD_eq_getElem?_getD]
    rw [List.getElem?_set_ne (Ne.symm hj)]
  · simpa using measure_high_le line 100 0 pos
  · intro h
    simpa using measure_high_stuck line 100 0 pos (by omega) h

theorem C1_checksum_match_stores_reading_witness :
    dht11_widths (frameLine widths_good) = some (widths_good, 207) ∧
    frame_bytes (widths_good.map pulse_bit) = [1, 0, 2, 0, 3] ∧
    read_dht11_data config_init (frameLine widths_good) =
      (true, { config_init with humidity := 1, temperature := 2 }) :=
  ⟨by decide, by decide,
    (C1_checksum_match_stores_reading config_init (frameLine widths_good) widths_good 207
      (by decide) (by decide)).2.1⟩

theorem C2_checksum_mismatch_keeps_reading_witness :
    dht11_widths (frameLine widths_bad) = some (widths_bad, 176) ∧
    frame_bytes (widths_bad.map pulse_bit) = [1, 0, 2, 0, 2] ∧
    read_dht11_data config_init (frameLine widths_bad) = (false, config_init) :=
  ⟨by decide, by decide,
    C2_checksum_mismatch_keeps_reading config_init (frameLine widths_bad) widths_bad 176
      (by decide) (by decide)⟩

theorem C3_pulse_width_threshold_witness :
    7 < 40 ∧ [0, 0, 0, 0, 0].length = 5 ∧
    (store_bit [0, 0, 0, 0, 0] 7 30).getD 0 0 % 2 = 0 ∧
    (store_bit [0, 0, 0, 0, 0] 7 31).getD 0 0 % 2 = 1 ∧
    (measure_high (fun _ => true) 100 0 0).1 = 100 :=
  have h := C3_pulse_width_threshold [0, 0, 0, 0, 0] 7 30 (fun _ => true) 0 (by decide) rfl
  ⟨by decide, rfl, h.2.2.2.1, h.2.2.2.2.1, h.2.2.2.2.2.2.2.2 (fun _ _ => rfl)⟩

/-! ## Connectivity -/

theorem link_lost_retry (s : firmware_t) (r : Nat)
    (h : s.current_retry_count < s.config.wifi_max_retries) :
    wifi_event_handler s (.WIFI_EVENT_STA_DISCONNECTED r) =
      { s with
        wifi_connected := false, mqtt_connected := false,
        current_retry_count := s.current_retry_count + 1,
        effects := .esp_wifi_connect :: .vTaskDelay_ms s.config.wifi_retry_delay_ms :: s.effects } := by
  simp [wifi_event_handler, h, firmware_t.emit]

theorem link_lost_exhausted (s : firmware_t) (r : Nat)
    (h : ¬ s.current_retry_count < s.config.wifi_max_retries) :
    wifi_event_handler s (.WIFI_EVENT_STA_DISCONNECTED r) =
      { s with wifi_connected := false, mqtt_connected := false } := by
  simp [wifi_event_handler, h]

theorem link_lost_run (rs : List Nat) :
    ∀ (s : firmware_t),
      s.current_retry_count + rs.length ≤ s.config.wifi_max_retries →
      (handle_events s (rs.map .WIFI_EVENT_STA_DISCONNECTED)).current_retry_count =
          s.current_retry_count + rs.length ∧
        join_requests (handle_events s (rs.map .WIFI_EVENT_STA_DISCONNECTED)) =
          join_requests s + rs.length ∧
        (handle_events s (rs.map .WIFI_EVENT_STA_DISCONNECTED)).config = s.config ∧
        (handle_events s (rs.map .WIFI_EVENT_STA_DISCONNECTED)).wifi_mode = s.wifi_mode ∧
        (handle_events s (rs.map .WIFI_EVENT_STA_DISCONNECTED)).server = s.server := by
  induction rs with
  | nil => intro s _; simp [handle_events]
  | cons r rs ih =>
    intro s h
    simp only [List.length_cons, Nat.cast_add, Nat.cast_one] at h
    have hlt : s.current_retry_count < s.config.wifi_max_retries := by omega
    have hstep := link_lost_retry s r hlt
    simp only [handle_events, List.map_cons, List.foldl_cons] at *
    rw [hstep]
    have := ih { s with
        wifi_connected := false, mqtt_connected := false,
        current_retry_count := s.current_retry_count + 1,
        effects := .esp_wifi_connect :: .vTaskDelay_ms s.config.wifi_retry_delay_ms :: s.effects }
      (by simp only; omega)
    obtain ⟨h1, h2, h3, h4, h5⟩ := this
    refine ⟨?_, ?_, h3, h4, h5⟩
    · rw [h1]; simp only [List.length_cons, Nat.cast_add, Nat.cast_one]; omega
    · rw [h2]; simp [join_requests]; omega

theorem on_event_keeps_disconnected (s : firmware_t) (e : sys_event_t)
    (hs : s.wifi_connected = false) (he : not_join e = true) :
    (on_event s e).wifi_connected = false := by
  cases e with
  | wifi w =>
    cases w with
    | WIFI_EVENT_STA_START => simpa [on_event, wifi_event_handler, firmware_t.emit] using hs
    | WIFI_EVENT_STA_DISCONNECTED r =>
      simp only [on_event, wifi_event_handler, firmware_t.emit]
      split <;> rfl
    | IP_EVENT_STA_GOT_IP => exact absurd he (by simp [not_join])
    | WIFI_EVENT_OTHER i => simpa [on_event, wifi_event_handler] using hs
  | mqtt m =>
    cases m <;> simpa [on_event, mqtt_event_handler] using hs

theorem deliver_keeps_disconnected (batch : List sys_event_t) :
    ∀ (s : firmware_t), s.wifi_connected = false → (∀ e ∈ batch, not_join e = true) →
      (deliver s batch).wifi_connected = false := by
  induction batch with
  | nil => intro s hs _; simpa [deliver] using hs
  | cons e batch ih =>
    intro s hs hb
    simp only [deliver, List.foldl_cons]
    exact ih (on_event s e) (on_event_keeps_disconnected s e hs (hb e (by simp)))
      (fun e' he' => hb e' (by simp [he']))

theorem wait_fails_without_join (fuel : Nat) :
    ∀ (waited : Int) (sched : List (List sys_event_t)) (s : firmware_t),
      s.wifi_connected = false → (∀ batch ∈ sched, ∀ e ∈ batch, not_join e = true) →
      15100 - waited ≤ 100 * (fuel : Int) → 1 ≤ fuel →
      ∃ s1 rest, wait_for_connection_loop true false 15000 fuel waited sched s =
          some (false, s1, rest) ∧ s1.wifi_connected = false := by
  induction fuel with
  | zero =>
    intro waited sched s hs _ _ hf
    omega
  | succ fuel ih =>
    intro waited sched s hs hsched hf _
    simp only [wait_for_connection_loop]
    by_cases hw : waited < 15000
    · rw [if_pos hw]
      simp only [hs, Bool.not_false, Bool.and_self, if_true, Bool.false_and, Bool.false_eq_true,
        if_false]
      apply ih
      · apply deliver_keeps_disconnected _ _ hs
        intro e he
        cases sched with
        | nil => simp at he
        | cons b bs => exact hsched b (by simp) e (by simpa using he)
      · intro batch hb
        exact hsched batch (List.mem_of_mem_tail hb)
      · push_cast at hf; omega
      · push_cast at hf; omega
    · rw [if_neg hw]
      exact ⟨s, sched, rfl, hs⟩

/-- The call `wait_for_connection(true, false, 15000)` of `app_main` is the loop
started at `waited = 0` with room for its 150 iterations. -/
theorem wait_for_connection_app_main (sched : List (List sys_event_t)) (s : firmware_t) :
    wait_for_connection true false 15000 sched s =
      wait_for_connection_loop true false 15000 152 0 sched s := rfl

theorem enter_ap_mode_spec (s : firmware_t) :
    (enter_ap_mode true s).wifi_mode = .WIFI_MODE_AP ∧ (enter_ap_mode true s).server = true := by
  unfold enter_ap_mode start_webserver wifi_start_ap firmware_t.emit
  by_cases h : s.server = true <;> simp [h]

theorem deliver_all_keeps_disconnected (sched : List (List sys_event_t)) :
    ∀ (s : firmware_t), s.wifi_connected = false →
      (∀ batch ∈ sched, ∀ e ∈ batch, not_join e = true) →
      (sched.foldl deliver s).wifi_connected = false := by
  induction sched with
  | nil => intro s hs _; simpa using hs
  | cons b bs ih =>
    intro s hs h
    simp only [List.foldl_cons]
    exact ih (deliver s b) (deliver_keeps_disconnected b s hs (h b (by simp)))
      (fun b' hb' => h b' (by simp [hb']))

theorem wait_loop_step (sched : List (List sys_event_t)) (s : firmware_t) (k : Nat) :
    ((sched.tail).take k).foldl deliver (deliver s (sched.headD [])) =
        (sched.take (k + 1)).foldl deliver s ∧
      (sched.tail).drop k = sched.drop (k + 1) := by
  cases sched with
  | nil => simp [deliver]
  | cons b bs => simp

theorem wait_loop_times_out (k : Nat) :
    ∀ (fuel : Nat) (waited : Int) (sched : List (List sys_event_t)) (s : firmware_t),
      (∀ i, i < k → ((sched.take i).foldl deliver s).wifi_connected = false) →
      15000 ≤ waited + 100 * (k : Int) → waited + 100 * (k : Int) < 15100 → k + 1 ≤ fuel →
      wait_for_connection_loop true false 15000 fuel waited sched s =
        some (false, (sched.take k).foldl deliver s, sched.drop k) := by
  induction k with
  | zero =>
    intro fuel waited sched s _ h1 _ hf
    obtain ⟨f, rfl⟩ : ∃ f, fuel = f + 1 := ⟨fuel - 1, by omega⟩
    simp only [wait_for_connection_loop]
    rw [if_neg (by push_cast at h1; omega)]
    simp
  | succ k ih =>
    intro fuel waited sched s hpoll h1 h2 hf
    obtain ⟨f, rfl⟩ : ∃ f, fuel = f + 1 := ⟨fuel - 1, by omega⟩
    have hs : s.wifi_connected = false := by simpa using hpoll 0 (by omega)
    simp only [wait_for_connection_loop]
    rw [if_pos (by push_cast at h2; omega)]
    simp only [hs, Bool.not_false, Bool.and_self, if_true, Bool.false_and, Bool.false_eq_true,
      if_false]
    rw [ih f (waited + 100) sched.tail (deliver s (sched.headD []))
      (fun i hi => by rw [(wait_loop_step sched s i).1]; exact hpoll (i + 1) (by omega))
      (by push_cast at h1; omega) (by push_cast at h2; omega) (by omega)]
    rw [(wait_loop_step sched s k).1, (wait_loop_step sched s k).2]

theorem wait_loop_connects (k : Nat) :
    ∀ (fuel : Nat) (waited : Int) (sched : List (List sys_event_t)) (s : firmware_t),
      (∀ i, i < k → ((sched.take i).foldl deliver s).wifi_connected = false) →
      ((sched.take k).foldl deliver s).wifi_connected = true →
      waited + 100 * (k : Int) < 15000 → k + 1 ≤ fuel →
      wait_for_connection_loop true false 15000 fuel waited sched s =
        some (true, (sched.take k).foldl deliver s, sched.drop k) := by
  induction k with
  | zero =>
    intro fuel waited sched s _ hc h1 hf
    obtain ⟨f, rfl⟩ : ∃ f, fuel = f + 1 := ⟨fuel - 1, by omega⟩
    have hs : s.wifi_connected = true := by simpa using hc
    simp only [wait_for_connection_loop]
    rw [if_pos (by push_cast at h1; omega)]
    simp [hs]
  | succ k ih =>
    intro fuel waited sched s hpoll hc h1 hf
    obtain ⟨f, rfl⟩ : ∃ f, fuel = f + 1 := ⟨fuel - 1, by omega⟩
    have hs : s.wifi_connected = false := by simpa using hpoll 0 (by omega)
    simp only [wait_for_connection_loop]
    rw [if_pos (by push_cast at h1; omega)]
    simp only [hs, Bool.not_false, Bool.and_self, if_true, Bool.false_and, Bool.false_eq_true,
      if_false]
    rw [ih f (waited + 100) sched.tail (deliver s (sched.headD []))
      (fun i hi => by rw [(wait_loop_step sched s i).1]; exact hpoll (i + 1) (by omega))
      (by rw [(wait_loop_step sched s k).1]; exact hc)
      (by push_cast at h1; omega) (by omega)]
    rw [(wait_loop_step sched s k).1, (wait_loop_step sched s k).2]

/-- C4 as stated fails.  On a first boot (`wifi_max_retries = 5`, counter 0) the
sixth consecutive link-lost event leaves the counter at 5 and issues no join
request, but it causes no transition: the radio is still in station mode and the
provisioning server is not running, the handler having made no driver call.
And the transition does not wait for it: with only two link-lost events
delivered during the connection wait of `app_main`, the wait returns `false`
with the counter at 2 of 5 and `wifi_start_ap(); start_webserver();` puts the
radio in access-point mode with the server running. -/
theorem C4_counterexample :
    joining_state.current_retry_count = 0 ∧
    joining_state.config.wifi_max_retries = 5 ∧
    (handle_events joining_state
      ((List.replicate 6 201).map .WIFI_EVENT_STA_DISCONNECTED)).current_retry_count = 5 ∧
    join_requests (handle_events joining_state
      ((List.replicate 6 201).map .WIFI_EVENT_STA_DISCONNECTED)) = 5 ∧
    (handle_events joining_state
      ((List.replicate 6 201).map .WIFI_EVENT_STA_DISCONNECTED)).wifi_mode = .WIFI_MODE_STA ∧
    (handle_events joining_state
      ((List.replicate 6 201).map .WIFI_EVENT_STA_DISCONNECTED)).server = false ∧
    (handle_events joining_state
      ((List.replicate 6 201).map .WIFI_EVENT_STA_DISCONNECTED)).effects =
      (handle_events joining_state
        ((List.replicate 5 201).map .WIFI_EVENT_STA_DISCONNECTED)).effects ∧
    (wait_for_connection true false 15000
        [[.wifi .WIFI_EVENT_STA_START], [.wifi (.WIFI_EVENT_STA_DISCONNECTED 201)],
          [.wifi (.WIFI_EVENT_STA_DISCONNECTED 201)]] joining_state).map
        (fun p => (p.1, p.2.1.current_retry_count, p.2.1.config.wifi_max_retries,
          p.2.1.wifi_mode, (enter_ap_mode true p.2.1).wifi_mode,
          (enter_ap_mode true p.2.1).server)) =
      some (false, 2, 5, .WIFI_MODE_STA, .WIFI_MODE_AP, true) := by
  refine ⟨rfl, rfl, rfl, rfl, rfl, rfl, rfl, ?_⟩
  decide

/-- C4, amended.  From `current_retry_count = 0` with `wifi_max_retries = n`,
each of the first `n` link-lost events raises the counter by one and calls
`esp_wifi_connect()` once, so that after `k <= n` of them the counter is `k` and
after all `n` it is `n`.  The next link-lost event only clears `wifi_connected`
and `mqtt_connected`: the counter stays at `n`, no driver call is made (no join
request), and the radio mode and the provisioning server are what they were, so
the handler makes no transition.  The transition is made by `app_main`, and the
counter plays no part in it: from any state, when `wifi_connected` is false at
each of the 150 polls of `wait_for_connection(true, false, 15000)` (as it is
when it is false at the start and no address-acquired event is delivered), the
wait returns `false` after the events of its 150 delays and
`wifi_start_ap(); start_webserver();` puts the radio in access-point mode with
the provisioning server running (`httpd_start` succeeding), the counter
unchanged; when `wifi_connected` is first seen true at poll `k < 150`, the wait
returns `true` there and `app_main` enters the application loop instead. -/
theorem C4_retries_exhausted_then_timeout (s : firmware_t) (reasons : List Nat) (r : Nat)
    (h0 : s.current_retry_count = 0)
    (hmax : s.config.wifi_max_retries = (reasons.length : Int)) :
    (∀ k, k ≤ reasons.length →
      (handle_events s ((reasons.take k).map .WIFI_EVENT_STA_DISCONNECTED)).current_retry_count
          = (k : Int) ∧
      join_requests (handle_events s ((reasons.take k).map .WIFI_EVENT_STA_DISCONNECTED))
          = join_requests s + k) ∧
    (handle_events s (reasons.map .WIFI_EVENT_STA_DISCONNECTED)).current_retry_count
      = (reasons.length : Int) ∧
    join_requests (handle_events s (reasons.map .WIFI_EVENT_STA_DISCONNECTED))
      = join_requests s + reasons.length ∧
    wifi_event_handler (handle_events s (reasons.map .WIFI_EVENT_STA_DISCONNECTED))
        (.WIFI_EVENT_STA_DISCONNECTED r) =
      { handle_events s (reasons.map .WIFI_EVENT_STA_DISCONNECTED) with
        wifi_connected := false, mqtt_connected := false } ∧
    (wifi_event_handler (handle_events s (reasons.map .WIFI_EVENT_STA_DISCONNECTED))
      (.WIFI_EVENT_STA_DISCONNECTED r)).current_retry_count = (reasons.length : Int) ∧
    join_requests (wifi_event_handler (handle_events s (reasons.map .WIFI_EVENT_STA_DISCONNECTED))
      (.WIFI_EVENT_STA_DISCONNECTED r)) = join_requests s + reasons.length ∧
    (wifi_event_handler (handle_events s (reasons.map .WIFI_EVENT_STA_DISCONNECTED))
      (.WIFI_EVENT_STA_DISCONNECTED r)).effects
      = (handle_events s (reasons.map .WIFI_EVENT_STA_DISCONNECTED)).effects ∧
    (wifi_event_handler (handle_events s (reasons.map .WIFI_EVENT_STA_DISCONNECTED))
      (.WIFI_EVENT_STA_DISCONNECTED r)).wifi_mode = s.wifi_mode ∧
    (wifi_event_handler (handle_events s (reasons.map .WIFI_EVENT_STA_DISCONNECTED))
      (.WIFI_EVENT_STA_DISCONNECTED r)).server = s.server ∧
    (∀ (s0 : firmware_t) (sched : List (List sys_event_t)),
      (∀ i, i < 150 → ((sched.take i).foldl deliver s0).wifi_connected = false) →
      wait_for_connection true false 15000 sched s0 =
          some (false, (sched.take 150).foldl deliver s0, sched.drop 150) ∧
        (enter_ap_mode true ((sched.take 150).foldl deliver s0)).wifi_mode = .WIFI_MODE_AP ∧
        (enter_ap_mode true ((sched.take 150).foldl deliver s0)).server = true ∧
        (enter_ap_mode true ((sched.take 150).foldl deliver s0)).current_retry_count =
          ((sched.take 150).foldl deliver s0).current_retry_count) ∧
    (∀ (s0 : firmware_t) (sched : List (List sys_event_t)),
      s0.wifi_connected = false → (∀ batch ∈ sched, ∀ e ∈ batch, not_join e = true) →
      wait_for_connection true false 15000 sched s0 =
        some (false, (sched.take 150).foldl deliver s0, sched.drop 150)) ∧
    (∀ (s0 : firmware_t) (sched : List (List sys_event_t)) (k : Nat), k < 150 →
      (∀ i, i < k → ((sched.take i).foldl deliver s0).wifi_connected = false) →
      ((sched.take k).foldl deliver s0).wifi_connected = true →
      wait_for_connection true false 15000 sched s0 =
        some (true, (sched.take k).foldl deliver s0, sched.drop k)) := by
  have hall := link_lost_run reasons s (by rw [h0, hmax]; simp)
  obtain ⟨hc, hj, hcfg, hmode, hserver⟩ := hall
  have hex : ¬ (handle_events s (reasons.map .WIFI_EVENT_STA_DISCONNECTED)).current_retry_count
      < (handle_events s (reasons.map .WIFI_EVENT_STA_DISCONNECTED)).config.wifi_max_retries := by
    rw [hc, hcfg, h0, hmax]; simp
  have hlast := link_lost_exhausted _ r hex
  have htimeout : ∀ (s0 : firmware_t) (sched : List (List sys_event_t)),
      (∀ i, i < 150 → ((sched.take i).foldl deliver s0).wifi_connected = false) →
      wait_for_connection true false 15000 sched s0 =
        some (false, (sched.take 150).foldl deliver s0, sched.drop 150) := by
    intro s0 sched hpoll
    rw [wait_for_connection_app_main]
    exact wait_loop_times_out 150 152 0 sched s0 hpoll (by norm_num) (by norm_num) (by norm_num)
  refine ⟨?_, ?_, hj, hlast, ?_, ?_, ?_, ?_, ?_, ?_, ?_, ?_⟩
  · intro k hk
    have hlen : (reasons.take k).length = k := by simp [hk]
    have := link_lost_run (reasons.take k) s (by rw [h0, hmax, hlen]; simp; omega)
    rw [hlen, h0] at this
    exact ⟨by simpa using this.1, this.2.1⟩
  · rw [hc, h0]; simp
  · rw [hlast]; simp only; rw [hc, h0]; simp
  · rw [hlast]; exact hj
  · rw [hlast]
  · rw [hlast]; exact hmode
  · rw [hlast]; exact hserver
  · intro s0 sched hpoll
    refine ⟨htimeout s0 sched hpoll, (enter_ap_mode_spec _).1, (enter_ap_mode_spec _).2, ?_⟩
    unfold enter_ap_mode start_webserver wifi_start_ap firmware_t.emit
    split_ifs <;> rfl
  · intro s0 sched hs hsched
    apply htimeout
    intro i _
    exact deliver_all_keeps_disconnected _ s0 hs
      (fun b hb => hsched b (List.mem_of_mem_take hb))
  · intro s0 sched k hk hpoll hconn
    rw [wait_for_connection_app_main]
    exact wait_loop_connects k 152 0 sched s0 hpoll hconn (by omega) (by omega)

theorem C4_retries_exhausted_then_timeout_witness :
    joining_state.current_retry_count = 0 ∧
    joining_state.config.wifi_max_retries = ([201, 201, 201, 201, 201].length : Int) ∧
    (handle_events joining_state
      ([201, 201, 201, 201, 201].map .WIFI_EVENT_STA_DISCONNECTED)).current_retry_count = 5 ∧
    (wifi_event_handler (handle_events joining_state
      ([201, 201, 201, 201, 201].map .WIFI_EVENT_STA_DISCONNECTED))
      (.WIFI_EVENT_STA_DISCONNECTED 201)).current_retry_count = 5 ∧
    (wifi_event_handler (handle_events joining_state
      ([201, 201, 201, 201, 201].map .WIFI_EVENT_STA_DISCONNECTED))
      (.WIFI_EVENT_STA_DISCONNECTED 201)).wifi_mode = joining_state.wifi_mode :=
  have h := C4_retries_exhausted_then_timeout joining_state [201, 201, 201, 201, 201] 201 rfl rfl
  ⟨rfl, rfl, h.2.1, h.2.2.2.2.1, h.2.2.2.2.2.2.2.1⟩

/-- C6. Whatever the retry counter is, the address-acquired event sets it to 0
and sets `wifi_connected`, restarting the broker session when a client exists;
`wifi_connect_sta` sets the counter to 0 as well and puts the radio in station
mode. -/
theorem C6_join_resets_retry_counter (s : firmware_t) :
    (wifi_event_handler s .IP_EVENT_STA_GOT_IP).current_retry_count = 0 ∧
    (wifi_event_handler s .IP_EVENT_STA_GOT_IP).wifi_connected = true ∧
    (wifi_event_handler s .IP_EVENT_STA_GOT_IP).effects =
      (if s.mqtt_client then
        .esp_mqtt_client_start :: .vTaskDelay_ms 1000 :: .esp_mqtt_client_stop :: s.effects
      else s.effects) ∧
    (wifi_connect_sta s).current_retry_count = 0 ∧
    (wifi_connect_sta s).wifi_connected = false ∧
    (wifi_connect_sta s).wifi_mode = .WIFI_MODE_STA := by
  unfold wifi_event_handler wifi_connect_sta firmware_t.emit
  by_cases h : s.mqtt_client = true <;> simp [h]

/-- C7 as stated fails: in the joined state of a first boot (`wifi_max_retries = 5`,
counter 0) a link-lost event leaves the counter at 1, not 0; and with
`wifi_max_retries = 0` the event issues no join request. -/
theorem C7_counterexample :
    joined_state.wifi_connected = true ∧
    joined_state.current_retry_count = 0 ∧
    joined_state.config.wifi_max_retries = 5 ∧
    (wifi_event_handler joined_state (.WIFI_EVENT_STA_DISCONNECTED 8)).current_retry_count = 1 ∧
    (wifi_event_handler joined_state (.WIFI_EVENT_STA_DISCONNECTED 8)).current_retry_count ≠ 0 ∧
    join_requests (wifi_event_handler
      { joined_state with config := { joined_state.config with wifi_max_retries := 0 } }
      (.WIFI_EVENT_STA_DISCONNECTED 8)) = join_requests joined_state := by
  decide

/-- C7, amended. A link-lost event handled in the joined state (`wifi_connected`,
counter 0) with `wifi_max_retries >= 0` marks the broker session and the link
disconnected; with `wifi_max_retries >= 1` the counter is 1 afterwards and one
join request is issued, with `wifi_max_retries = 0` the counter stays 0 and no
join request is issued.  The handler leaves the radio mode and the portal as
they are; the guard `wifi_connected` of `main_application_loop` is false
afterwards, and the code `app_main` runs once that loop has returned puts the
radio in access-point mode with the provisioning server running (`httpd_start`
succeeding). -/
theorem C7_link_lost_while_joined (s : firmware_t) (r : Nat)
    (_hj : s.wifi_connected = true) (hc : s.current_retry_count = 0)
    (hm : 0 ≤ s.config.wifi_max_retries) :
    (wifi_event_handler s (.WIFI_EVENT_STA_DISCONNECTED r)).mqtt_connected = false ∧
    (wifi_event_handler s (.WIFI_EVENT_STA_DISCONNECTED r)).wifi_connected = false ∧
    (wifi_event_handler s (.WIFI_EVENT_STA_DISCONNECTED r)).wifi_mode = s.wifi_mode ∧
    (wifi_event_handler s (.WIFI_EVENT_STA_DISCONNECTED r)).server = s.server ∧
    (wifi_event_handler s (.WIFI_EVENT_STA_DISCONNECTED r)).current_retry_count =
      (if 1 ≤ s.config.wifi_max_retries then 1 else 0) ∧
    join_requests (wifi_event_handler s (.WIFI_EVENT_STA_DISCONNECTED r)) =
      join_requests s + (if 1 ≤ s.config.wifi_max_retries then 1 else 0) ∧
    (enter_ap_mode true (wifi_event_handler s (.WIFI_EVENT_STA_DISCONNECTED r))).wifi_mode
      = .WIFI_MODE_AP ∧
    (enter_ap_mode true (wifi_event_handler s (.WIFI_EVENT_STA_DISCONNECTED r))).server = true := by
  have hap := enter_ap_mode_spec (wifi_event_handler s (.WIFI_EVENT_STA_DISCONNECTED r))
  by_cases h : 1 ≤ s.config.wifi_max_retries
  · have hlt : s.current_retry_count < s.config.wifi_max_retries := by omega
    have hstep := link_lost_retry s r hlt
    refine ⟨?_, ?_, ?_, ?_, ?_, ?_, hap.1, hap.2⟩ <;> rw [hstep] <;>
      simp [h, hc, join_requests]
  · have hlt : ¬ s.current_retry_count < s.config.wifi_max_retries := by omega
    have hstep := link_lost_exhausted s r hlt
    refine ⟨?_, ?_, ?_, ?_, ?_, ?_, hap.1, hap.2⟩ <;> rw [hstep] <;>
      simp [h, hc, join_requests]

theorem C7_link_lost_while_joined_witness :
    joined_state.wifi_connected = true ∧ joined_state.current_retry_count = 0 ∧
    0 ≤ joined_state.config.wifi_max_retries ∧
    (wifi_event_handler joined_state (.WIFI_EVENT_STA_DISCONNECTED 8)).mqtt_connected = false ∧
    (wifi_event_handler joined_state (.WIFI_EVENT_STA_DISCONNECTED 8)).current_retry_count = 1 :=
  have h := C7_link_lost_while_joined joined_state 8 rfl rfl (by decide)
  ⟨rfl, rfl, by decide, h.1, h.2.2.2.2.1⟩

/-! ## Frame lemmas: what the store functions and the handlers leave alone -/

theorem save_wifi_config_frame (s : firmware_t) (r : esp_err_t × firmware_t)
    (h : save_wifi_config s = some r) :
    r.2.current_retry_count = s.current_retry_count ∧ r.2.config = s.config := by
  unfold save_wifi_config at h
  simp only [] at h
  split at h
  · cases h; simp
  · split at h
    · cases h
    · split at h
      · cases h; simp
      · split at h
        · cases h
        · split at h
          · cases h; simp
          · split at h
            · cases h; simp
            · split at h
              · cases h; simp
              · cases h; simp

theorem load_wifi_config_frame (s : firmware_t) :
    (load_wifi_config s).2.current_retry_count = s.current_retry_count := by
  unfold load_wifi_config
  simp only []
  split
  · rfl
  · split
    · rfl
    · split <;> rfl

theorem app_main_load_frame (s : firmware_t) (r : esp_err_t × firmware_t)
    (h : app_main_load s = some r) :
    r.2.current_retry_count = s.current_retry_count := by
  unfold app_main_load at h
  simp only [] at h
  split at h
  · split at h
    · cases h
    · split at h
      · cases h
      · cases h; simp [load_wifi_config_frame]
  · cases h; simp [load_wifi_config_frame]

theorem clear_wifi_config_frame (s : firmware_t) (r : esp_err_t × firmware_t)
    (h : clear_wifi_config s = some r) :
    r.2.current_retry_count = s.current_retry_count := by
  unfold clear_wifi_config at h
  simp only [] at h
  split at h
  · cases h; simp
  · split at h
    · split at h
      · cases h
      · split at h
        · cases h
        · cases h; simp
    · cases h; simp

theorem reset_config_handler_frame (s : firmware_t) (r : esp_err_t × firmware_t)
    (h : reset_config_handler s = some r) :
    r.2.current_retry_count = s.current_retry_count := by
  unfold reset_config_handler at h
  simp only [Option.bind_eq_bind, Option.bind_eq_some] at h
  obtain ⟨r1, h1, h2⟩ := h
  cases h2
  simpa [firmware_t.emit] using clear_wifi_config_frame s r1 h1

theorem save_config_handler_frame (recv : List Nat) (s : firmware_t)
    (r : esp_err_t × firmware_t) (h : save_config_handler recv s = some r) :
    r.2.current_retry_count = s.current_retry_count := by
  unfold save_config_handler at h
  split at h
  · cases h; simp [firmware_t.emit]
  · simp only [] at h
    split at h
    · simp only [Option.bind_eq_bind, Option.bind_eq_some] at h
      obtain ⟨_, _, _, _, _, _, _, _, _, _, _, _, _, _, _, _, _, _, _, _, r1, h1, h2⟩ := h
      cases h2
      simpa [firmware_t.emit] using (save_wifi_config_frame _ r1 h1).1
    · cases h; simp [firmware_t.emit]

/-! ## The retry counter in reachable states -/

theorem on_event_counter (s : firmware_t) (e : sys_event_t) (h0 : 0 ≤ s.current_retry_count) :
    0 ≤ (on_event s e).current_retry_count ∧
    (on_event s e).config = s.config ∧
    (s.current_retry_count ≤ s.config.wifi_max_retries →
      (on_event s e).current_retry_count ≤ s.config.wifi_max_retries) := by
  cases e with
  | wifi w =>
    cases w with
    | WIFI_EVENT_STA_START => simp [on_event, wifi_event_handler, firmware_t.emit, h0]
    | WIFI_EVENT_STA_DISCONNECTED r =>
      by_cases h : s.current_retry_count < s.config.wifi_max_retries
      · simp only [on_event, link_lost_retry s r h]
        refine ⟨by omega, trivial, fun _ => by omega⟩
      · simp only [on_event, link_lost_exhausted s r h]
        exact ⟨h0, trivial, fun hb => hb⟩
    | IP_EVENT_STA_GOT_IP =>
      simp only [on_event, wifi_event_handler, firmware_t.emit]
      split
      · exact ⟨le_refl _, rfl, fun hb => le_trans h0 hb⟩
      · exact ⟨le_refl _, rfl, fun hb => le_trans h0 hb⟩
    | WIFI_EVENT_OTHER i => simp [on_event, wifi_event_handler, h0]
  | mqtt m =>
    cases m <;> simp [on_event, mqtt_event_handler, h0]

theorem step_counter_nonneg (s : firmware_t) (op : op_t) (s1 : firmware_t)
    (h0 : 0 ≤ s.current_retry_count) (h : step s op = some s1) :
    0 ≤ s1.current_retry_count := by
  cases op with
  | event e =>
    simp only [step, Option.some.injEq] at h
    rw [← h]; exact (on_event_counter s e h0).1
  | station_entry =>
    simp only [step, Option.some.injEq] at h
    rw [← h]; simp [wifi_connect_sta, firmware_t.emit]
  | config_load =>
    simp only [step, Option.map_eq_some'] at h
    obtain ⟨r, hr, rfl⟩ := h
    rw [app_main_load_frame s r hr]; exact h0
  | post_save recv =>
    simp only [step, Option.map_eq_some'] at h
    obtain ⟨r, hr, rfl⟩ := h
    rw [save_config_handler_frame recv s r hr]; exact h0
  | post_reset =>
    simp only [step, Option.map_eq_some'] at h
    obtain ⟨r, hr, rfl⟩ := h
    rw [reset_config_handler_frame s r hr]; exact h0
  | restart =>
    simp only [step, Option.some.injEq] at h
    rw [← h]; simp [reboot, boot]

theorem step_connectivity_bound (s : firmware_t) (op : op_t) (s1 : firmware_t)
    (hop : connectivity_op op = true) (h0 : 0 ≤ s.current_retry_count)
    (hb : s.current_retry_count ≤ s.config.wifi_max_retries) (h : step s op = some s1) :
    s1.current_retry_count ≤ s1.config.wifi_max_retries ∧
    s1.config.wifi_max_retries = s.config.wifi_max_retries := by
  cases op with
  | event e =>
    simp only [step, Option.some.injEq] at h
    have := on_event_counter s e h0
    rw [← h, this.2.1]
    exact ⟨this.2.2 hb, rfl⟩
  | station_entry =>
    simp only [step, Option.some.injEq] at h
    rw [← h]
    simp only [wifi_connect_sta, firmware_t.emit]
    exact ⟨le_trans h0 hb, trivial⟩
  | config_load => exact absurd hop (by simp [connectivity_op])
  | post_save recv => exact absurd hop (by simp [connectivity_op])
  | post_reset => exact absurd hop (by simp [connectivity_op])
  | restart => exact absurd hop (by simp [connectivity_op])

/-- C5 as stated fails: `POST /save` stores whatever `atoi` returns.  After the
body `ssid=a&password=b&retries=-1&delay=0` the state has
`wifi_max_retries = -1` below the counter 0, and so has the state after the
restart, the load and the entry into station mode that follow; and after five
retries on a first boot (counter 5) the body of the specification's scenario
(`retries=3`) leaves the counter 5 above `wifi_max_retries = 3`.  So the bound
`0 <= current_retry_count <= wifi_max_retries` does not hold in every reachable
state. -/
theorem C5_counterexample :
    ((run (boot nvs_blank) [.post_save (bytes "ssid=a&password=b&retries=-1&delay=0")]).map
      (fun s => (s.current_retry_count, s.config.wifi_max_retries))) = some (0, -1) ∧
    ((run (boot nvs_blank) [.post_save (bytes "ssid=a&password=b&retries=-1&delay=0"),
        .restart, .config_load, .station_entry]).map
      (fun s => (s.current_retry_count, s.config.wifi_max_retries))) = some (0, -1) ∧
    ((run (boot nvs_blank)
        [.station_entry,
         .event (.wifi (.WIFI_EVENT_STA_DISCONNECTED 201)),
         .event (.wifi (.WIFI_EVENT_STA_DISCONNECTED 201)),
         .event (.wifi (.WIFI_EVENT_STA_DISCONNECTED 201)),
         .event (.wifi (.WIFI_EVENT_STA_DISCONNECTED 201)),
         .event (.wifi (.WIFI_EVENT_STA_DISCONNECTED 201)),
         .post_save body_home]).map
      (fun s => (s.current_retry_count, s.config.wifi_max_retries))) = some (5, 3) ∧
    ¬ (∀ (ops : List op_t) (s : firmware_t), run (boot nvs_blank) ops = some s →
        0 ≤ s.current_retry_count ∧ s.current_retry_count ≤ s.config.wifi_max_retries) := by
  refine ⟨rfl, rfl, rfl, ?_⟩
  intro h
  have h1 := h [.post_save (bytes "ssid=a&password=b&retries=-1&delay=0")]
    ((run (boot nvs_blank)
      [.post_save (bytes "ssid=a&password=b&retries=-1&delay=0")]).getD (boot nvs_blank)) rfl
  exact absurd h1.2 (by decide)

/-- C5, amended. In every state reached from a state with a non-negative counter
(the boot state has counter 0) by link and broker events, entries into station
mode, configuration loads, `POST /save`, `POST /reset` and restarts, the counter
is non-negative; and as long as the steps are events and entries into station
mode, a counter that is at most `wifi_max_retries` stays so, `wifi_max_retries`
being unchanged. -/
theorem C5_retry_counter_bounds (s : firmware_t) (ops : List op_t) (s1 : firmware_t)
    (h0 : 0 ≤ s.current_retry_count) (hrun : run s ops = some s1) :
    0 ≤ s1.current_retry_count ∧
    ((∀ op ∈ ops, connectivity_op op = true) →
      s.current_retry_count ≤ s.config.wifi_max_retries →
      s1.current_retry_count ≤ s1.config.wifi_max_retries ∧
      s1.config.wifi_max_retries = s.config.wifi_max_retries) := by
  induction ops generalizing s with
  | nil =>
    simp only [run, Option.some.injEq] at hrun
    subst hrun
    exact ⟨h0, fun _ hb => ⟨hb, rfl⟩⟩
  | cons op ops ih =>
    simp only [run] at hrun
    cases hs : step s op with
    | none => simp [hs] at hrun
    | some s2 =>
      simp only [hs] at hrun
      have h2 := step_counter_nonneg s op s2 h0 hs
      obtain ⟨ha, hbnd⟩ := ih s2 h2 hrun
      refine ⟨ha, fun hall hb => ?_⟩
      have hstep := step_connectivity_bound s op s2 (hall op (by simp)) h0 hb hs
      have := hbnd (fun o ho => hall o (by simp [ho])) hstep.1
      exact ⟨this.1, this.2.trans hstep.2⟩

theorem C5_retry_counter_bounds_witness :
    0 ≤ (boot nvs_blank).current_retry_count ∧
    run (boot nvs_blank)
        [.station_entry, .event (.wifi (.WIFI_EVENT_STA_DISCONNECTED 201))] =
      some (wifi_event_handler joining_state (.WIFI_EVENT_STA_DISCONNECTED 201)) ∧
    0 ≤ (wifi_event_handler joining_state (.WIFI_EVENT_STA_DISCONNECTED 201)).current_retry_count ∧
    (wifi_event_handler joining_state (.WIFI_EVENT_STA_DISCONNECTED 201)).current_retry_count ≤
      (wifi_event_handler joining_state
        (.WIFI_EVENT_STA_DISCONNECTED 201)).config.wifi_max_retries :=
  have h := C5_retry_counter_bounds (boot nvs_blank)
    [.station_entry, .event (.wifi (.WIFI_EVENT_STA_DISCONNECTED 201))]
    (wifi_event_handler joining_state (.WIFI_EVENT_STA_DISCONNECTED 201)) (by decide) rfl
  ⟨by decide, rfl, h.1,
    (h.2 (by decide) (by decide)).1⟩

/-! ## C strings -/

theorem cstr_no_zero (p : List Nat) : ∀ c ∈ cstr p, c ≠ 0 := by
  intro c hc
  have := List.mem_takeWhile_imp hc
  simpa using this

theorem cstr_append_zero (l r : List Nat) (h : ∀ c ∈ l, c ≠ 0) : cstr (l ++ 0 :: r) = l := by
  induction l with
  | nil => simp [cstr]
  | cons a l ih =>
    have ha : a ≠ 0 := h a (by simp)
    have := ih (fun c hc => h c (by simp [hc]))
    simp only [cstr] at this ⊢
    simp [List.takeWhile_cons, ha, this]

theorem cstr_length_lt (p : List Nat) (h : 0 ∈ p) : (cstr p).length < p.length := by
  induction p with
  | nil => simp at h
  | cons a p ih =>
    by_cases ha : a = 0
    · simp [cstr, List.takeWhile_cons, ha]
    · have h1 : 0 ∈ p := by
        rcases List.mem_cons.mp h with h | h
        · exact absurd h.symm ha
        · exact h
      have := ih h1
      simp only [cstr] at this ⊢
      simp [List.takeWhile_cons, ha]
      omega

theorem cstr_rewrite (p r : List Nat) : cstr (cstr p ++ 0 :: r) = cstr p :=
  cstr_append_zero _ _ (cstr_no_zero p)

theorem strstr_here (hay needle : List Nat) (hne : hay ≠ []) (h : needle <+: hay) :
    strstr hay needle = some hay := by
  cases hay with
  | nil => exact absurd rfl hne
  | cons c cs =>
    have : needle.isPrefixOf (c :: cs) = true := List.isPrefixOf_iff_prefix.mpr h
    simp [strstr, this]

theorem strstr_step (c : Nat) (cs needle : List Nat) (h0 : c ≠ 0)
    (h : ¬ needle <+: c :: cs) : strstr (c :: cs) needle = strstr cs needle := by
  have : needle.isPrefixOf (c :: cs) = false := by
    rw [Bool.eq_false_iff]
    intro hp
    exact h (List.isPrefixOf_iff_prefix.mp hp)
  simp [strstr, this, h0]

/-- A key that ends in `=` does not start inside a value that holds no `=` and
is followed by a byte the key does not contain. -/
theorem not_prefix_in_value (V t : List Nat) (w : List Nat) (c0 : Nat)
    (hV : ∀ c ∈ V, c ≠ 61) (hc0 : c0 ∉ w ++ [61]) :
    ¬ (w ++ [61]) <+: V ++ c0 :: t := by
  intro hp
  by_cases hlen : (w ++ [61]).length ≤ V.length
  · have h1 : (w ++ [61]) <+: V :=
      List.prefix_of_prefix_length_le hp (List.prefix_append V (c0 :: t)) hlen
    have : 61 ∈ V := h1.subset (by simp)
    exact hV 61 this rfl
  · have h2 : (V ++ [c0]) <+: V ++ c0 :: t := by
      rw [show V ++ c0 :: t = (V ++ [c0]) ++ t by simp]
      exact List.prefix_append _ _
    have h1 : (V ++ [c0]) <+: (w ++ [61]) :=
      List.prefix_of_prefix_length_le h2 hp (by simp at hlen ⊢; omega)
    exact hc0 (h1.subset (by simp))

theorem strstr_skip_value (V : List Nat) :
    ∀ (t w : List Nat) (c0 : Nat), (∀ c ∈ V, c ≠ 0 ∧ c ≠ 61) → c0 ∉ w ++ [61] →
      strstr (V ++ c0 :: t) (w ++ [61]) = strstr (c0 :: t) (w ++ [61]) := by
  induction V with
  | nil => intro t w c0 _ _; rfl
  | cons a V ih =>
    intro t w c0 hV hc0
    have hstep := strstr_step a (V ++ c0 :: t) (w ++ [61]) (hV a (by simp)).1
      (by
        have := not_prefix_in_value (a :: V) t w c0 (fun c hc => (hV c hc).2) hc0
        simpa using this)
    rw [List.cons_append, hstep]
    exact ih t w c0 (fun c hc => hV c (by simp [hc])) hc0

theorem strchr_skip_value (V : List Nat) (ch : Nat) :
    ∀ (t : List Nat), (∀ c ∈ V, c ≠ 0 ∧ c ≠ ch) →
      strchr (V ++ ch :: t) ch = some (ch :: t) := by
  induction V with
  | nil => intro t _; simp [strchr]
  | cons a V ih =>
    intro t hV
    have ha := hV a (by simp)
    simp only [List.cons_append, strchr, if_neg ha.2, if_neg ha.1]
    exact ih t (fun c hc => hV c (by simp [hc]))

theorem strchr_none_value (V : List Nat) (ch : Nat) (hch : ch ≠ 0) :
    ∀ (t : List Nat), (∀ c ∈ V, c ≠ 0 ∧ c ≠ ch) → strchr (V ++ 0 :: t) ch = none := by
  induction V with
  | nil => intro t _; simp [strchr, hch.symm]
  | cons a V ih =>
    intro t hV
    have ha := hV a (by simp)
    simp only [List.cons_append, strchr, if_neg ha.2, if_neg ha.1]
    exact ih t (fun c hc => hV c (by simp [hc]))

theorem strncpy_fill_exact (V : List Nat) :
    ∀ (t : List Nat), (∀ c ∈ V, c ≠ 0) → strncpy_fill (V ++ t) V.length = V := by
  induction V with
  | nil => intro t _; simp [strncpy_fill]
  | cons a V ih =>
    intro t hV
    have ha := hV a (by simp)
    simp only [List.cons_append, List.length_cons, strncpy_fill, if_neg ha]
    exact congrArg _ (ih t (fun c hc => hV c (by simp [hc])))

theorem strncpy_fill_zeros (n : Nat) : strncpy_fill [] n = List.replicate n 0 := by
  induction n with
  | zero => simp [strncpy_fill]
  | succ n ih => simp [strncpy_fill, ih, List.replicate_succ]

theorem strncpy_fill_cstr (p : List Nat) :
    ∀ (n : Nat), 0 ∈ p → (cstr p).length ≤ n →
      strncpy_fill p n = cstr p ++ List.replicate (n - (cstr p).length) 0 := by
  induction p with
  | nil => intro n h _; simp at h
  | cons a p ih =>
    intro n h hn
    by_cases ha : a = 0
    · subst ha
      cases n with
      | zero => simp [strncpy_fill, cstr]
      | succ n => simp [strncpy_fill, cstr]
    · have h1 : 0 ∈ p := by
        rcases List.mem_cons.mp h with h | h
        · exact absurd h.symm ha
        · exact h
      have hc : cstr (a :: p) = a :: cstr p := by simp [cstr, List.takeWhile_cons, ha]
      rw [hc] at hn ⊢
      cases n with
      | zero => simp at hn
      | succ n =>
        simp only [List.length_cons] at hn
        simp only [strncpy_fill, if_neg ha, List.length_cons, List.cons_append]
        rw [ih n h1 (by omega)]
        simp

theorem cstr_append_nul (l r : List Nat) : cstr (l ++ 0 :: r) = cstr l := by
  induction l with
  | nil => simp [cstr]
  | cons a l ih =>
    by_cases ha : a = 0
    · simp [cstr, List.takeWhile_cons, ha]
    · simp only [cstr] at ih ⊢
      simp [List.takeWhile_cons, ha, ih]

theorem url_decode_loop_length (l : List Nat) :
    ∀ (k : Nat), (url_decode_loop k l).length ≤ l.length := by
  induction l with
  | nil => intro k; cases k <;> simp [url_decode_loop]
  | cons c rest ih =>
    intro k
    cases k with
    | succ k =>
      simp only [url_decode_loop, List.length_cons]
      have := ih k; omega
    | zero =>
      simp only [url_decode_loop]
      split
      · simp
      · split
        · simp only [List.length_cons]; have := ih 2; omega
        · split
          · simp only [List.length_cons]; have := ih 0; omega
          · simp only [List.length_cons]; have := ih 0; omega

theorem url_decode_loop_cons (c : Nat) (rest : List Nat) :
    url_decode_loop 0 (c :: rest) =
      if c = 0 then []
      else if c = 37 ∧ rest.getD 0 0 ≠ 0 ∧ rest.getD 1 0 ≠ 0 ∧
          isxdigit (rest.getD 0 0) = true ∧ isxdigit (rest.getD 1 0) = true then
        ((16 * hex_value (rest.getD 0 0) + hex_value (rest.getD 1 0)) % 256) ::
          url_decode_loop 2 rest
      else if c = 43 then 32 :: url_decode_loop 0 rest
      else c :: url_decode_loop 0 rest := by
  rw [url_decode_loop]

theorem url_decode_loop_skip2 (a b : Nat) (r : List Nat) :
    url_decode_loop 2 (a :: b :: r) = url_decode_loop 0 r := by
  rw [url_decode_loop, url_decode_loop]

theorem url_decode_loop_nul (n : Nat) :
    ∀ (S t : List Nat), S.length = n → (∀ c ∈ S, c ≠ 0) →
      url_decode_loop 0 (S ++ 0 :: t) = url_decode_loop 0 S := by
  induction n using Nat.strong_induction_on with
  | _ n ih =>
    intro S t hlen hS
    cases S with
    | nil => simp [url_decode_loop]
    | cons c rest =>
      have hrest : ∀ x ∈ rest, x ≠ 0 := fun x hx => hS x (by simp [hx])
      simp only [List.length_cons] at hlen
      have ih0 := ih rest.length (by omega) rest t rfl hrest
      rw [List.cons_append, url_decode_loop_cons c (rest ++ 0 :: t), url_decode_loop_cons c rest,
        ih0]
      cases rest with
      | nil => simp
      | cons a rest2 =>
        cases rest2 with
        | nil => simp
        | cons b r =>
          have hr : ∀ x ∈ r, x ≠ 0 := fun x hx => hrest x (by simp [hx])
          have ih2 := ih r.length (by simp at hlen; omega) r t rfl hr
          simp only [List.cons_append, List.getD_cons_zero, List.getD_cons_succ,
            url_decode_loop_skip2, ih2]

theorem atoi_digits_value (ds : List Nat) :
    ∀ (acc : Nat), (∀ c ∈ ds, 48 ≤ c ∧ c ≤ 57) →
      atoi_digits ds acc = acc * 10 ^ ds.length + decimal_value ds := by
  induction ds with
  | nil => intro acc _; simp [atoi_digits, decimal_value]
  | cons d ds ih =>
    intro acc h
    have hd := h d (by simp)
    simp only [atoi_digits, if_pos hd]
    rw [ih _ (fun c hc => h c (by simp [hc]))]
    simp only [decimal_value, List.map_cons, List.reverse_cons, Nat.ofDigits_append,
      List.length_reverse, List.length_map, Nat.ofDigits_singleton, List.length_cons]
    ring

theorem decimal_value_lt (ds : List Nat) (h : ∀ c ∈ ds, 48 ≤ c ∧ c ≤ 57) :
    decimal_value ds < 10 ^ ds.length := by
  have := Nat.ofDigits_lt_base_pow_length (b := 10) (l := (ds.map (fun c => c - 48)).reverse)
    (by norm_num) (by
      intro x hx
      simp only [List.mem_reverse, List.mem_map] at hx
      obtain ⟨c, hc, rfl⟩ := hx
      have := h c hc
      omega)
  simpa [decimal_value] using this

/-- The value `atoi` returns for an array that holds a numeral of at most nine
digits and then NULs. -/
theorem atoi_numeral (ds : List Nat) (k : Nat) (h : ∀ c ∈ ds, 48 ≤ c ∧ c ≤ 57)
    (hlen : ds.length ≤ 9) (hk : 1 ≤ k) :
    atoi (ds ++ List.replicate k 0) = some (decimal_value ds : Int) := by
  obtain ⟨k, rfl⟩ : ∃ j, k = j + 1 := ⟨k - 1, by omega⟩
  have hz : ∀ c ∈ ds, c ≠ 0 := fun c hc => by have := h c hc; omega
  have hmem : 0 ∈ ds ++ List.replicate (k + 1) 0 := by simp [List.replicate_succ]
  have hcs : cstr (ds ++ List.replicate (k + 1) 0) = ds := by
    rw [List.replicate_succ, cstr_append_zero _ _ hz]
  have hval := atoi_digits_value ds 0 h
  have hlt := decimal_value_lt ds h
  have hpow : 10 ^ ds.length ≤ 10 ^ 9 := Nat.pow_le_pow_right (by norm_num) hlen
  have hb : (decimal_value ds : Int) < 1000000000 := by
    have : decimal_value ds < 1000000000 := by
      have : (10 : Nat) ^ 9 = 1000000000 := by norm_num
      omega
    exact_mod_cast this
  have hclamp : clamp_i32 (decimal_value ds : Int) = decimal_value ds := by
    unfold clamp_i32
    rw [if_neg (by omega), if_neg (by omega)]
  unfold atoi c_string
  rw [if_pos hmem]
  simp only [hcs]
  cases ds with
  | nil => simp [atoi_digits, decimal_value, clamp_i32]
  | cons d ds =>
    have hd := h d (by simp)
    have hsp : isspace d = false := by
      simp only [isspace, Bool.or_eq_false_iff, decide_eq_false_iff_not, Bool.and_eq_false_imp,
        decide_eq_true_eq]
      omega
    have hdw : List.dropWhile isspace (d :: ds) = d :: ds := by
      simp [List.dropWhile_cons, hsp]
    simp only [hdw, List.head?_cons, Option.some.injEq]
    rw [if_neg (by omega), if_neg (by omega)]
    simp only [Nat.zero_mul, Nat.zero_add] at hval
    rw [hval, hclamp]

/-! ## Shape of the configuration in reachable states -/

theorem write_str_shape (old str : List Nat) (n : Nat) (hl : old.length = n + 1)
    (hz : old.getD n 1 = 0) (h : str.length + 1 ≤ old.length) :
    (str ++ 0 :: old.drop (str.length + 1)).length = n + 1 ∧
    (str ++ 0 :: old.drop (str.length + 1)).getD n 1 = 0 := by
  refine ⟨by simp; omega, ?_⟩
  rw [List.getD_eq_getElem?_getD] at hz ⊢
  by_cases hn : str.length = n
  · rw [List.getElem?_append_right (by omega), hn]
    simp
  · rw [List.getElem?_append_right (by omega)]
    obtain ⟨k, hk⟩ : ∃ k, n - str.length = k + 1 := ⟨n - str.length - 1, by omega⟩
    rw [hk, List.getElem?_cons_succ, List.getElem?_drop]
    rw [show str.length + 1 + k = n by omega]
    exact hz

theorem strncpy_fill_length (src : List Nat) : ∀ (n : Nat), (strncpy_fill src n).length = n := by
  induction src with
  | nil => intro n; rw [strncpy_fill_zeros]; simp
  | cons c cs ih =>
    intro n
    cases n with
    | zero => simp [strncpy_fill]
    | succ n =>
      simp only [strncpy_fill]
      split
      · simp
      · simp [ih n]

theorem strncpy_shape (old src w : List Nat) (n : Nat) (hl : old.length = n + 1)
    (hz : old.getD n 1 = 0) (h : strncpy old src n = some w) :
    w.length = n + 1 ∧ w.getD n 1 = 0 := by
  unfold strncpy at h
  rw [if_pos (by omega)] at h
  cases h
  refine ⟨by simp [strncpy_fill_length, hl], ?_⟩
  rw [List.getD_eq_getElem?_getD] at hz ⊢
  rw [List.getElem?_append_right (by simp [strncpy_fill_length])]
  simpa [strncpy_fill_length] using hz

theorem strcpy_shape (old src w : List Nat) (n : Nat) (hl : old.length = n + 1)
    (hz : old.getD n 1 = 0) (h : strcpy old src = some w) :
    w.length = n + 1 ∧ w.getD n 1 = 0 := by
  unfold strcpy at h
  split at h
  · cases h
  · split at h
    · cases h
      exact write_str_shape old _ n hl hz (by assumption)
    · cases h

theorem nvs_get_str_shape (nvs : nvs_t) (key : nvs_key) (old : List Nat) (n : Nat)
    (hl : old.length = n + 1) (hz : old.getD n 1 = 0) :
    (nvs_get_str nvs key old).2.length = n + 1 ∧ (nvs_get_str nvs key old).2.getD n 1 = 0 := by
  unfold nvs_get_str
  split
  · exact ⟨hl, hz⟩
  · split
    · exact ⟨hl, hz⟩
    · exact ⟨hl, hz⟩
    · split
      · exact write_str_shape old _ n hl hz (by assumption)
      · exact ⟨hl, hz⟩

theorem load_wifi_config_wf (s : firmware_t) (h : config_wf s.config) :
    config_wf (load_wifi_config s).2.config := by
  obtain ⟨a1, a2, a3, a4, a5, a6⟩ := h
  have g1 := nvs_get_str_shape (nvs_open s.nvs false).2 .NVS_KEY_SSID s.config.wifi_ssid 31 a1 a2
  have g2 := nvs_get_str_shape (nvs_open s.nvs false).2 .NVS_KEY_PASSWORD
    s.config.wifi_password 63 a3 a4
  unfold load_wifi_config
  simp only []
  split
  · exact ⟨a1, a2, a3, a4, a5, a6⟩
  · split
    · exact ⟨a1, a2, a3, a4, a5, a6⟩
    · split
      · exact ⟨g1.1, g1.2, a3, a4, a5, a6⟩
      · exact ⟨g1.1, g1.2, g2.1, g2.2, a5, a6⟩

theorem app_main_load_wf (s : firmware_t) (r : esp_err_t × firmware_t)
    (h : config_wf s.config) (hr : app_main_load s = some r) : config_wf r.2.config := by
  have hl := load_wifi_config_wf s h
  obtain ⟨a1, a2, a3, a4, a5, a6⟩ := hl
  unfold app_main_load at hr
  simp only [] at hr
  split at hr
  · split at hr
    · cases hr
    · rename_i ssid hssid
      split at hr
      · cases hr
      · rename_i password hpw
        cases hr
        have s1 := strcpy_shape _ _ _ 31 a1 a2 hssid
        have s2 := strcpy_shape _ _ _ 63 a3 a4 hpw
        exact ⟨s1.1, s1.2, s2.1, s2.2, a5, a6⟩
  · cases hr
    exact ⟨a1, a2, a3, a4, a5, a6⟩

theorem clear_wifi_config_wf (s : firmware_t) (r : esp_err_t × firmware_t)
    (h : config_wf s.config) (hr : clear_wifi_config s = some r) : config_wf r.2.config := by
  obtain ⟨a1, a2, a3, a4, a5, a6⟩ := h
  unfold clear_wifi_config at hr
  simp only [] at hr
  split at hr
  · cases hr; exact ⟨a1, a2, a3, a4, a5, a6⟩
  · split at hr
    · split at hr
      · cases hr
      · rename_i ssid hssid
        split at hr
        · cases hr
        · rename_i password hpw
          cases hr
          have s1 := strcpy_shape _ _ _ 31 a1 a2 hssid
          have s2 := strcpy_shape _ _ _ 63 a3 a4 hpw
          exact ⟨s1.1, s1.2, s2.1, s2.2, a5, a6⟩
    · cases hr; exact ⟨a1, a2, a3, a4, a5, a6⟩

theorem save_config_handler_wf (recv : List Nat) (s : firmware_t) (r : esp_err_t × firmware_t)
    (h : config_wf s.config) (hr : save_config_handler recv s = some r) :
    config_wf r.2.config := by
  obtain ⟨a1, a2, a3, a4, a5, a6⟩ := h
  unfold save_config_handler at hr
  split at hr
  · cases hr; exact ⟨a1, a2, a3, a4, a5, a6⟩
  · simp only [] at hr
    split at hr
    · simp only [Option.bind_eq_bind, Option.bind_eq_some] at hr
      obtain ⟨_, _, _, _, _, _, _, _, d1, _, d2, _, ws, hws, wp, hwp, _, _, _, _, r1, h1, h2⟩ := hr
      cases h2
      have hcfg := (save_wifi_config_frame _ r1 h1).2
      have s1 := strncpy_shape _ _ _ 31 a1 a2 hws
      have s2 := strncpy_shape _ _ _ 63 a3 a4 hwp
      simp only [firmware_t.emit, hcfg]
      exact ⟨s1.1, s1.2, s2.1, s2.2, a5, a6⟩
    · cases hr; exact ⟨a1, a2, a3, a4, a5, a6⟩

theorem step_wf (s : firmware_t) (op : op_t) (s1 : firmware_t) (h : config_wf s.config)
    (hs : step s op = some s1) : config_wf s1.config := by
  cases op with
  | event e =>
    simp only [step, Option.some.injEq] at hs
    cases e with
    | wifi w =>
      cases w with
      | WIFI_EVENT_STA_START => rw [← hs]; exact h
      | WIFI_EVENT_STA_DISCONNECTED r =>
        rw [← hs]
        simp only [on_event, wifi_event_handler, firmware_t.emit]
        split <;> exact h
      | IP_EVENT_STA_GOT_IP =>
        rw [← hs]
        simp only [on_event, wifi_event_handler, firmware_t.emit]
        split <;> exact h
      | WIFI_EVENT_OTHER i => rw [← hs]; exact h
    | mqtt m => rw [← hs]; cases m <;> exact h
  | station_entry =>
    simp only [step, Option.some.injEq] at hs
    rw [← hs]; exact h
  | config_load =>
    simp only [step, Option.map_eq_some'] at hs
    obtain ⟨r, hr, rfl⟩ := hs
    exact app_main_load_wf s r h hr
  | post_save recv =>
    simp only [step, Option.map_eq_some'] at hs
    obtain ⟨r, hr, rfl⟩ := hs
    exact save_config_handler_wf recv s r h hr
  | post_reset =>
    simp only [step, Option.map_eq_some'] at hs
    obtain ⟨r, hr, rfl⟩ := hs
    unfold reset_config_handler at hr
    simp only [Option.bind_eq_bind, Option.bind_eq_some] at hr
    obtain ⟨r1, h1, h2⟩ := hr
    cases h2
    exact clear_wifi_config_wf s r1 h h1
  | restart =>
    simp only [step, Option.some.injEq] at hs
    rw [← hs]
    show config_wf config_init
    decide

/-- Every state reached from a boot state has a configuration of the expected shape. -/
theorem reachable_config_wf (nvs : nvs_t) (ops : List op_t) (s : firmware_t)
    (h : run (boot nvs) ops = some s) : config_wf s.config := by
  have gen : ∀ (ops : List op_t) (s0 s : firmware_t), config_wf s0.config →
      run s0 ops = some s → config_wf s.config := by
    intro ops
    induction ops with
    | nil =>
      intro s0 s h0 h
      simp only [run, Option.some.injEq] at h
      rw [← h]; exact h0
    | cons op ops ih =>
      intro s0 s h0 h
      simp only [run] at h
      cases hs : step s0 op with
      | none => simp [hs] at h
      | some s2 =>
        simp only [hs] at h
        exact ih s2 s (step_wf s0 op s2 h0 hs) h
  exact gen ops (boot nvs) s (by show config_wf config_init; decide) h

/-! ## ConfigStore -/

/-- What `save_wifi_config` does on a medium that does not fail. -/
theorem save_wifi_config_ok (s : firmware_t) (hf : ∀ c, s.nvs.faulty c = false)
    (h1 : 0 ∈ s.config.wifi_ssid) (h2 : 0 ∈ s.config.wifi_password) :
    ∃ s1, save_wifi_config s = some (.ESP_OK, s1) ∧
      s1.config = s.config ∧
      s1.nvs.namespace_exists = true ∧
      s1.nvs.faulty = s.nvs.faulty ∧
      s1.nvs.entries .NVS_KEY_SSID = some (.str (cstr s.config.wifi_ssid)) ∧
      s1.nvs.entries .NVS_KEY_PASSWORD = some (.str (cstr s.config.wifi_password)) ∧
      s1.nvs.entries .NVS_KEY_RETRIES = some (.i32 s.config.wifi_max_retries) ∧
      s1.nvs.entries .NVS_KEY_DELAY = some (.i32 s.config.wifi_retry_delay_ms) := by
  refine ⟨{ s with nvs := { s.nvs with
      namespace_exists := true,
      entries := fun k =>
        if k = .NVS_KEY_DELAY then some (.i32 s.config.wifi_retry_delay_ms)
        else if k = .NVS_KEY_RETRIES then some (.i32 s.config.wifi_max_retries)
        else if k = .NVS_KEY_PASSWORD then some (.str (cstr s.config.wifi_password))
        else if k = .NVS_KEY_SSID then some (.str (cstr s.config.wifi_ssid))
        else s.nvs.entries k } }, ?_, ?_⟩
  · unfold save_wifi_config
    simp [nvs_open, nvs_set_str, nvs_set_i32, nvs_set, nvs_commit, c_string, hf, h1, h2]
  · simp

/-- What `load_wifi_config` does when the four items are stored and the medium
does not fail. -/
theorem load_wifi_config_ok (s : firmware_t) (ssid password : List Nat) (retries delay : Int)
    (hf : ∀ c, s.nvs.faulty c = false) (hn : s.nvs.namespace_exists = true)
    (e1 : s.nvs.entries .NVS_KEY_SSID = some (.str ssid))
    (e2 : s.nvs.entries .NVS_KEY_PASSWORD = some (.str password))
    (e3 : s.nvs.entries .NVS_KEY_RETRIES = some (.i32 retries))
    (e4 : s.nvs.entries .NVS_KEY_DELAY = some (.i32 delay))
    (l1 : ssid.length + 1 ≤ s.config.wifi_ssid.length)
    (l2 : password.length + 1 ≤ s.config.wifi_password.length) :
    load_wifi_config s = (.ESP_OK, { s with config := { s.config with
      wifi_ssid := ssid ++ 0 :: s.config.wifi_ssid.drop (ssid.length + 1),
      wifi_password := password ++ 0 :: s.config.wifi_password.drop (password.length + 1),
      wifi_max_retries := retries,
      wifi_retry_delay_ms := delay } }) := by
  unfold load_wifi_config
  simp [nvs_open, nvs_get_str, nvs_get_i32, hf, hn, e1, e2, e3, e4, l1, l2]

/-- C8. On a medium that does not fail, with `wifi_ssid` and `wifi_password`
NUL-terminated inside their arrays of 32 and 64 bytes (so at most 31 and 63
bytes long) and any two integers, `save_wifi_config` returns `ESP_OK`; and
`load_wifi_config`, run afterwards on the store it left, from whatever
in-memory state, returns `ESP_OK` and leaves the in-memory SSID, password,
`wifi_max_retries` and `wifi_retry_delay_ms` equal to the saved ones. -/
theorem C8_save_load_round_trip (s : firmware_t)
    (hf : ∀ c, s.nvs.faulty c = false)
    (hs1 : s.config.wifi_ssid.length = 32) (hs2 : 0 ∈ s.config.wifi_ssid)
    (hp1 : s.config.wifi_password.length = 64) (hp2 : 0 ∈ s.config.wifi_password) :
    (save_wifi_config s).map (fun r => r.1) = some .ESP_OK ∧
    ∀ r, save_wifi_config s = some r →
      ∀ s2 : firmware_t, s2.nvs = r.2.nvs →
        s2.config.wifi_ssid.length = 32 → s2.config.wifi_password.length = 64 →
        (load_wifi_config s2).1 = .ESP_OK ∧
        cstr (load_wifi_config s2).2.config.wifi_ssid = cstr s.config.wifi_ssid ∧
        cstr (load_wifi_config s2).2.config.wifi_password = cstr s.config.wifi_password ∧
        (load_wifi_config s2).2.config.wifi_max_retries = s.config.wifi_max_retries ∧
        (load_wifi_config s2).2.config.wifi_retry_delay_ms = s.config.wifi_retry_delay_ms := by
  obtain ⟨s1, hsave, _, hn, hfl, e1, e2, e3, e4⟩ := save_wifi_config_ok s hf hs2 hp2
  refine ⟨by rw [hsave]; rfl, ?_⟩
  intro r hr s2 hnvs l1 l2
  rw [hsave] at hr
  cases hr
  have hl1 := cstr_length_lt _ hs2
  have hl2 := cstr_length_lt _ hp2
  have hload := load_wifi_config_ok s2 (cstr s.config.wifi_ssid) (cstr s.config.wifi_password)
    s.config.wifi_max_retries s.config.wifi_retry_delay_ms
    (by intro c; rw [hnvs, hfl]; exact hf c) (by rw [hnvs]; exact hn)
    (by rw [hnvs]; exact e1) (by rw [hnvs]; exact e2) (by rw [hnvs]; exact e3)
    (by rw [hnvs]; exact e4) (by omega) (by omega)
  rw [hload]
  exact ⟨rfl, cstr_rewrite _ _, cstr_rewrite _ _, rfl, rfl⟩

theorem C8_save_load_round_trip_witness :
    (∀ c, home_state.nvs.faulty c = false) ∧
    0 ∈ home_state.config.wifi_ssid ∧ 0 ∈ home_state.config.wifi_password ∧
    (load_wifi_config (reboot home_saved.2)).1 = .ESP_OK ∧
    cstr (load_wifi_config (reboot home_saved.2)).2.config.wifi_ssid = bytes "Home" ∧
    cstr (load_wifi_config (reboot home_saved.2)).2.config.wifi_password = bytes "Secret1" ∧
    (load_wifi_config (reboot home_saved.2)).2.config.wifi_max_retries = 3 ∧
    (load_wifi_config (reboot home_saved.2)).2.config.wifi_retry_delay_ms = 500 :=
  ⟨fun _ => rfl, by decide, by decide,
    (C8_save_load_round_trip home_state (fun _ => rfl) rfl (by decide) rfl (by decide)).2
      home_saved rfl (reboot home_saved.2) rfl rfl rfl⟩

theorem clear_wifi_config_ok (s : firmware_t) (hf : ∀ c, s.nvs.faulty c = false)
    (hd1 : s.config.default_ssid = c_array 32 "SBC")
    (hd2 : s.config.default_password = c_array 64 "SBCwifi$")
    (hs1 : s.config.wifi_ssid.length = 32) (hp1 : s.config.wifi_password.length = 64) :
    clear_wifi_config s = some (.ESP_OK, { s with
      nvs := { s.nvs with namespace_exists := true, entries := fun _ => none },
      config := { s.config with
        wifi_ssid := [83, 66, 67] ++ 0 :: s.config.wifi_ssid.drop 4,
        wifi_password := [83, 66, 67, 119, 105, 102, 105, 36] ++ 0 :: s.config.wifi_password.drop 9,
        wifi_max_retries := 5, wifi_retry_delay_ms := 1000 } }) := by
  have c1 : c_string (c_array 32 "SBC") = some [83, 66, 67] := by decide
  have c2 : c_string (c_array 64 "SBCwifi$") = some [83, 66, 67, 119, 105, 102, 105, 36] := by
    decide
  unfold clear_wifi_config
  simp [nvs_open, nvs_erase_all, nvs_commit, strcpy, hf, hd1, hd2, c1, c2, hs1, hp1]

theorem app_main_load_not_found (s : firmware_t) (hf : ∀ c, s.nvs.faulty c = false)
    (hn : s.nvs.namespace_exists = true) (he : s.nvs.entries .NVS_KEY_SSID = none)
    (hd1 : s.config.default_ssid = c_array 32 "SBC")
    (hd2 : s.config.default_password = c_array 64 "SBCwifi$")
    (hs1 : s.config.wifi_ssid.length = 32) (hp1 : s.config.wifi_password.length = 64) :
    load_wifi_config s = (.ESP_ERR_NVS_NOT_FOUND, s) ∧
    app_main_load s = some (.ESP_ERR_NVS_NOT_FOUND, { s with config := { s.config with
        wifi_ssid := [83, 66, 67] ++ 0 :: s.config.wifi_ssid.drop 4,
        wifi_password :=
          [83, 66, 67, 119, 105, 102, 105, 36] ++ 0 :: s.config.wifi_password.drop 9 } }) := by
  have c1 : c_string (c_array 32 "SBC") = some [83, 66, 67] := by decide
  have c2 : c_string (c_array 64 "SBCwifi$") = some [83, 66, 67, 119, 105, 102, 105, 36] := by
    decide
  have hl : load_wifi_config s = (.ESP_ERR_NVS_NOT_FOUND, s) := by
    unfold load_wifi_config
    simp [nvs_open, nvs_get_str, hf, hn, he]
  refine ⟨hl, ?_⟩
  unfold app_main_load
  simp [hl, strcpy, hd1, hd2, c1, c2, hs1, hp1]

/-- C9. In any state reached from a boot state, on a medium that does not fail
and whatever the store holds, `clear_wifi_config` returns `ESP_OK` and a `load_wifi_config` that follows, in
the same run or after the restart, returns `ESP_ERR_NVS_NOT_FOUND`; after the
fallback of `app_main` (lines 944-948) the in-memory SSID is `SBC`, the password
is the default password, `wifi_max_retries` is 5 and `wifi_retry_delay_ms` is
1000. -/
theorem C9_clear_then_load_defaults (nvs0 : nvs_t) (ops : List op_t) (s : firmware_t)
    (hreach : run (boot nvs0) ops = some s)
    (hf : ∀ c, s.nvs.faulty c = false) :
    (clear_wifi_config s).map (fun r => r.1) = some .ESP_OK ∧
    ∀ r, clear_wifi_config s = some r →
      (load_wifi_config r.2).1 = .ESP_ERR_NVS_NOT_FOUND ∧
      (app_main_load r.2).map (fun q => (q.1, cstr q.2.config.wifi_ssid,
          cstr q.2.config.wifi_password, q.2.config.wifi_max_retries,
          q.2.config.wifi_retry_delay_ms)) =
        some (.ESP_ERR_NVS_NOT_FOUND, bytes "SBC", bytes "SBCwifi$", 5, 1000) ∧
      (load_wifi_config (reboot r.2)).1 = .ESP_ERR_NVS_NOT_FOUND ∧
      (app_main_load (reboot r.2)).map (fun q => (q.1, cstr q.2.config.wifi_ssid,
          cstr q.2.config.wifi_password, q.2.config.wifi_max_retries,
          q.2.config.wifi_retry_delay_ms)) =
        some (.ESP_ERR_NVS_NOT_FOUND, bytes "SBC", bytes "SBCwifi$", 5, 1000) := by
  obtain ⟨hs1, _, hp1, _, hd1, hd2⟩ := reachable_config_wf nvs0 ops s hreach
  have hclear := clear_wifi_config_ok s hf hd1 hd2 hs1 hp1
  have b1 : bytes "SBC" = [83, 66, 67] := by decide
  have b2 : bytes "SBCwifi$" = [83, 66, 67, 119, 105, 102, 105, 36] := by decide
  have z1 : ∀ r : List Nat, cstr ([83, 66, 67] ++ 0 :: r) = [83, 66, 67] :=
    fun r => cstr_append_zero _ r (by decide)
  have z2 : ∀ r : List Nat, cstr ([83, 66, 67, 119, 105, 102, 105, 36] ++ 0 :: r) =
      [83, 66, 67, 119, 105, 102, 105, 36] := fun r => cstr_append_zero _ r (by decide)
  refine ⟨by rw [hclear]; rfl, ?_⟩
  intro r hr
  rw [hclear] at hr
  cases hr
  have h1 := app_main_load_not_found
    { s with
      nvs := { s.nvs with namespace_exists := true, entries := fun _ => none },
      config := { s.config with
        wifi_ssid := [83, 66, 67] ++ 0 :: s.config.wifi_ssid.drop 4,
        wifi_password := [83, 66, 67, 119, 105, 102, 105, 36] ++ 0 :: s.config.wifi_password.drop 9,
        wifi_max_retries := 5, wifi_retry_delay_ms := 1000 } }
    hf rfl rfl hd1 hd2 (by simp [hs1]) (by simp [hp1])
  have h2 := app_main_load_not_found
    (reboot { s with
      nvs := { s.nvs with namespace_exists := true, entries := fun _ => none },
      config := { s.config with
        wifi_ssid := [83, 66, 67] ++ 0 :: s.config.wifi_ssid.drop 4,
        wifi_password := [83, 66, 67, 119, 105, 102, 105, 36] ++ 0 :: s.config.wifi_password.drop 9,
        wifi_max_retries := 5, wifi_retry_delay_ms := 1000 } })
    hf rfl rfl rfl rfl rfl rfl
  refine ⟨by rw [h1.1], ?_, by rw [h2.1], ?_⟩
  · rw [h1.2]
    simp only [Option.map_some', b1, b2, z1, z2]
  · rw [h2.2]
    simp only [Option.map_some', b1, b2, z1, z2]
    rfl

theorem C9_clear_then_load_defaults_witness :
    run (boot nvs_blank) [.post_save body_home] = some provisioned_state ∧
    (∀ c, provisioned_state.nvs.faulty c = false) ∧
    provisioned_state.nvs.entries .NVS_KEY_SSID = some (.str (bytes "Home")) ∧
    (load_wifi_config home_cleared.2).1 = .ESP_ERR_NVS_NOT_FOUND ∧
    (app_main_load (reboot home_cleared.2)).map (fun q => (q.1, cstr q.2.config.wifi_ssid,
        cstr q.2.config.wifi_password, q.2.config.wifi_max_retries,
        q.2.config.wifi_retry_delay_ms)) =
      some (.ESP_ERR_NVS_NOT_FOUND, bytes "SBC", bytes "SBCwifi$", 5, 1000) :=
  have h := (C9_clear_then_load_defaults nvs_blank [.post_save body_home] provisioned_state
    rfl (fun _ => rfl)).2 home_cleared rfl
  ⟨rfl, fun _ => rfl, rfl, h.1, h.2.2.2⟩

/-! ## Provisioning: `POST /save` -/

theorem save_wifi_config_some (s : firmware_t)
    (h1 : 0 ∈ s.config.wifi_ssid) (h2 : 0 ∈ s.config.wifi_password) :
    ∃ r, save_wifi_config s = some r := by
  unfold save_wifi_config
  simp only [nvs_set_str, c_string, if_pos h1, if_pos h2]
  split
  · exact ⟨_, rfl⟩
  · split
    · exact ⟨_, rfl⟩
    · split
      · exact ⟨_, rfl⟩
      · split
        · exact ⟨_, rfl⟩
        · split <;> exact ⟨_, rfl⟩

theorem strstr_skip_value_key (V t needle : List Nat) (c0 : Nat)
    (hV : ∀ c ∈ V, c ≠ 0 ∧ c ≠ 61) (hlast : needle.getLast? = some 61) (hc0 : c0 ∉ needle) :
    strstr (V ++ c0 :: t) needle = strstr (c0 :: t) needle := by
  have hne : needle ≠ [] := by
    intro h; simp [h] at hlast
  have hl : needle.getLast hne = 61 := by
    rw [List.getLast?_eq_getLast _ hne] at hlast
    exact Option.some.inj hlast
  have hsplit : needle = needle.dropLast ++ [61] := by
    rw [← hl]; exact (List.dropLast_append_getLast hne).symm
  rw [hsplit]
  exact strstr_skip_value V t needle.dropLast c0 hV (by rw [← hsplit]; exact hc0)

theorem form_body_eq (S P R D : List Nat) :
    form_body S P R D ++ [0] =
      115 :: 115 :: 105 :: 100 :: 61 :: (S ++ 38 :: 112 :: 97 :: 115 :: 115 :: 119 :: 111 ::
        114 :: 100 :: 61 :: (P ++ 38 :: 114 :: 101 :: 116 :: 114 :: 105 :: 101 :: 115 :: 61 ::
          (R ++ 38 :: 100 :: 101 :: 108 :: 97 :: 121 :: 61 :: (D ++ [0])))) := by
  have b1 : bytes "ssid=" = [115, 115, 105, 100, 61] := by decide
  have b2 : bytes "&password=" = [38, 112, 97, 115, 115, 119, 111, 114, 100, 61] := by decide
  have b3 : bytes "&retries=" = [38, 114, 101, 116, 114, 105, 101, 115, 61] := by decide
  have b4 : bytes "&delay=" = [38, 100, 101, 108, 97, 121, 61] := by decide
  simp [form_body, b1, b2, b3, b4]

theorem form_body_length (S P R D : List Nat) :
    (form_body S P R D).length = 31 + S.length + P.length + R.length + D.length := by
  have := congrArg List.length (form_body_eq S P R D)
  simp at this
  omega

theorem form_strstr (S P R D : List Nat)
    (hS : ∀ c ∈ S, c ≠ 0 ∧ c ≠ 61) (hP : ∀ c ∈ P, c ≠ 0 ∧ c ≠ 61)
    (hR : ∀ c ∈ R, c ≠ 0 ∧ c ≠ 61) :
    strstr (form_body S P R D ++ [0]) (bytes "ssid=") = some (form_body S P R D ++ [0]) ∧
    strstr (form_body S P R D ++ [0]) (bytes "password=") =
      some (112 :: 97 :: 115 :: 115 :: 119 :: 111 ::
        114 :: 100 :: 61 :: (P ++ 38 :: 114 :: 101 :: 116 :: 114 :: 105 :: 101 :: 115 :: 61 ::
          (R ++ 38 :: 100 :: 101 :: 108 :: 97 :: 121 :: 61 :: (D ++ [0])))) ∧
    strstr (form_body S P R D ++ [0]) (bytes "retries=") =
      some (114 :: 101 :: 116 :: 114 :: 105 :: 101 :: 115 :: 61 ::
          (R ++ 38 :: 100 :: 101 :: 108 :: 97 :: 121 :: 61 :: (D ++ [0]))) ∧
    strstr (form_body S P R D ++ [0]) (bytes "delay=") =
      some (100 :: 101 :: 108 :: 97 :: 121 :: 61 :: (D ++ [0])) := by
  have k1 : bytes "ssid=" = [115, 115, 105, 100, 61] := by decide
  have k2 : bytes "password=" = [112, 97, 115, 115, 119, 111, 114, 100, 61] := by decide
  have k3 : bytes "retries=" = [114, 101, 116, 114, 105, 101, 115, 61] := by decide
  have k4 : bytes "delay=" = [100, 101, 108, 97, 121, 61] := by decide
  refine ⟨?_, ?_, ?_, ?_⟩
  · apply strstr_here
    · rw [form_body_eq]; simp
    · rw [form_body_eq, k1]; simp
  · rw [form_body_eq, k2]
    iterate 5 rw [strstr_step _ _ _ (by decide) (by simp)]
    rw [strstr_skip_value_key S _ _ 38 hS (by decide) (by decide)]
    rw [strstr_step _ _ _ (by decide) (by simp)]
    exact strstr_here _ _ (by simp) (by simp)
  · rw [form_body_eq, k3]
    iterate 5 rw [strstr_step _ _ _ (by decide) (by simp)]
    rw [strstr_skip_value_key S _ _ 38 hS (by decide) (by decide)]
    iterate 10 rw [strstr_step _ _ _ (by decide) (by simp)]
    rw [strstr_skip_value_key P _ _ 38 hP (by decide) (by decide)]
    rw [strstr_step _ _ _ (by decide) (by simp)]
    exact strstr_here _ _ (by simp) (by simp)
  · rw [form_body_eq, k4]
    iterate 5 rw [strstr_step _ _ _ (by decide) (by simp)]
    rw [strstr_skip_value_key S _ _ 38 hS (by decide) (by decide)]
    iterate 10 rw [strstr_step _ _ _ (by decide) (by simp)]
    rw [strstr_skip_value_key P _ _ 38 hP (by decide) (by decide)]
    iterate 9 rw [strstr_step _ _ _ (by decide) (by simp)]
    rw [strstr_skip_value_key R _ _ 38 hR (by decide) (by decide)]
    rw [strstr_step _ _ _ (by decide) (by simp)]
    exact strstr_here _ _ (by simp) (by simp)

theorem extract_ssid_value (V t : List Nat) (hV : ∀ c ∈ V, c ≠ 0 ∧ c ≠ 38)
    (hlen : V.length ≤ 32) :
    extract_ssid (V ++ 38 :: t) = some (V ++ List.replicate (32 - V.length) 0) := by
  unfold extract_ssid
  rw [strchr_skip_value V 38 t hV]
  simp only [strncpy, zeros, List.length_append, List.length_cons, List.length_replicate]
  rw [show V.length + (t.length + 1) - (t.length + 1) = V.length by omega, if_pos hlen,
    strncpy_fill_exact V _ (fun c hc => (hV c hc).1), List.drop_replicate]

theorem extract_field_value (n : Nat) (V t : List Nat) (hV : ∀ c ∈ V, c ≠ 0 ∧ c ≠ 38)
    (hlen : V.length ≤ n) :
    extract_field n (V ++ 38 :: t) = some (V ++ List.replicate (n - V.length) 0) := by
  unfold extract_field
  rw [strchr_skip_value V 38 t hV]
  simp only [strncpy, zeros, List.length_append, List.length_cons, List.length_replicate]
  rw [show V.length + (t.length + 1) - (t.length + 1) = V.length by omega, if_pos hlen,
    strncpy_fill_exact V _ (fun c hc => (hV c hc).1)]
  simp

theorem extract_field_last (n : Nat) (V : List Nat) (hV : ∀ c ∈ V, c ≠ 0 ∧ c ≠ 38)
    (hlen : V.length + 1 ≤ n) :
    extract_field n (V ++ [0]) = some (V ++ List.replicate (n - V.length) 0) := by
  unfold extract_field
  rw [strchr_none_value V 38 (by decide) [] hV]
  have hc : cstr (V ++ [0]) = V := cstr_append_zero V [] (fun c hc => (hV c hc).1)
  simp only [strncpy, zeros, List.length_replicate]
  rw [if_pos (by omega), strncpy_fill_cstr (V ++ [0]) (n - 1) (by simp) (by rw [hc]; omega), hc]
  simp only [List.drop_replicate, List.append_assoc, ← List.replicate_add]
  rw [show n - 1 - V.length + (n - (n - 1)) = n - V.length by omega]

/-- The decoding of one field and its copy into `config`: `url_decode` of the
array that holds `V` and NULs, then `strncpy(dst, decoded, n)` into an array of
`n + 1` bytes whose last byte is NUL. -/
theorem decode_and_store (n : Nat) (old V : List Nat) (hV : ∀ c ∈ V, c ≠ 0)
    (hlen : V.length ≤ n) (hold : old.length = n + 1) (hlast : old.getD n 1 = 0) :
    ∃ dec w, url_decode (zeros (n + 1)) (V ++ List.replicate (n + 1 - V.length) 0) = some dec ∧
      strncpy old dec n = some w ∧
      cstr w = cstr (url_decode_loop 0 V) ∧ 0 ∈ w := by
  obtain ⟨k, hk⟩ : ∃ k, n + 1 - V.length = k + 1 := ⟨n - V.length, by omega⟩
  have hout : url_decode_loop 0 (V ++ List.replicate (n + 1 - V.length) 0) = url_decode_loop 0 V := by
    rw [hk, List.replicate_succ]
    exact url_decode_loop_nul V.length V _ rfl hV
  have hol := url_decode_loop_length V 0
  have hcl : (cstr (url_decode_loop 0 V)).length ≤ (url_decode_loop 0 V).length := by
    simp only [cstr]
    exact (List.takeWhile_sublist _).length_le
  refine ⟨url_decode_loop 0 V ++ 0 :: (zeros (n + 1)).drop ((url_decode_loop 0 V).length + 1),
    cstr (url_decode_loop 0 V) ++ List.replicate (n - (cstr (url_decode_loop 0 V)).length) 0 ++
      old.drop n, ?_, ?_, ?_, ?_⟩
  · unfold url_decode
    rw [if_pos (by rw [hk]; simp [List.replicate_succ])]
    simp only [hout]
    rw [if_pos (by simp [zeros]; omega)]
  · unfold strncpy
    rw [if_pos (by omega)]
    rw [strncpy_fill_cstr _ n (by simp) (by rw [cstr_append_nul]; omega), cstr_append_nul]
  · have hd : old.drop n = [0] := by
      have h1 : (old.drop n).length = 1 := by simp [hold]
      match hdr : old.drop n, h1 with
      | [x], _ =>
        have : old.getD n 1 = x := by
          have h2 : old[n]? = (old.drop n)[0]? := by simp
          rw [List.getD_eq_getElem?_getD, h2, hdr]; rfl
        rw [hlast] at this
        rw [← this]
    rw [hd, List.append_assoc, ← List.replicate_succ', List.replicate_succ]
    exact cstr_rewrite _ _
  · have hd : 0 ∈ old.drop n := by
      have h1 : (old.drop n).length = 1 := by simp [hold]
      match hdr : old.drop n, h1 with
      | [x], _ =>
        have : old.getD n 1 = x := by
          have h2 : old[n]? = (old.drop n)[0]? := by simp
          rw [List.getD_eq_getElem?_getD, h2, hdr]; rfl
        rw [hlast] at this
        rw [← this]; simp
    simp [hd]

/-- C10. For a body `ssid=S&password=P&retries=R&delay=D` whose values `S`, `P`
hold no NUL, `&` or `=` and are at most 31 and 63 bytes long, and whose `R`, `D`
are decimal numerals of at most nine digits, handled in any state reached from
a boot state: `save_config_handler` sets the in-memory SSID and password to the strings
`url_decode` yields for `S` and `P`, `wifi_max_retries` and
`wifi_retry_delay_ms` to the values of `R` and `D`, calls `save_wifi_config` on
that configuration, sends the success page and calls `esp_restart`; when the
medium does not fail the store then holds exactly these four items. -/
theorem C10_post_save_sets_config (s : firmware_t) (S P R D : List Nat)
    (hS : ∀ c ∈ S, c ≠ 0 ∧ c ≠ 38 ∧ c ≠ 61) (hP : ∀ c ∈ P, c ≠ 0 ∧ c ≠ 38 ∧ c ≠ 61)
    (hR : ∀ c ∈ R, 48 ≤ c ∧ c ≤ 57) (hD : ∀ c ∈ D, 48 ≤ c ∧ c ≤ 57)
    (lS : S.length ≤ 31) (lP : P.length ≤ 63) (lR : R.length ≤ 9) (lD : D.length ≤ 9)
    (nvs0 : nvs_t) (ops : List op_t) (hreach : run (boot nvs0) ops = some s) :
    ∃ wifi_ssid wifi_password r,
      cstr wifi_ssid = cstr (url_decode_loop 0 S) ∧
      cstr wifi_password = cstr (url_decode_loop 0 P) ∧
      save_wifi_config { s with config := { s.config with
        wifi_ssid := wifi_ssid, wifi_password := wifi_password,
        wifi_max_retries := decimal_value R, wifi_retry_delay_ms := decimal_value D } } = some r ∧
      r.2.config = { s.config with
        wifi_ssid := wifi_ssid, wifi_password := wifi_password,
        wifi_max_retries := decimal_value R, wifi_retry_delay_ms := decimal_value D } ∧
      save_config_handler (form_body S P R D) s =
        some (.ESP_OK, ((r.2.emit (.httpd_resp_send .HTML_SAVE_SUCCESS)).emit
          (.vTaskDelay_ms 3000)).emit .esp_restart) ∧
      ((∀ c, s.nvs.faulty c = false) →
        r.1 = .ESP_OK ∧
        r.2.nvs.entries .NVS_KEY_SSID = some (.str (cstr (url_decode_loop 0 S))) ∧
        r.2.nvs.entries .NVS_KEY_PASSWORD = some (.str (cstr (url_decode_loop 0 P))) ∧
        r.2.nvs.entries .NVS_KEY_RETRIES = some (.i32 (decimal_value R)) ∧
        r.2.nvs.entries .NVS_KEY_DELAY = some (.i32 (decimal_value D))) := by
  obtain ⟨w1, z1, w2, z2, _, _⟩ := reachable_config_wf nvs0 ops s hreach
  have hR' : ∀ c ∈ R, c ≠ 0 ∧ c ≠ 38 := fun c hc => by have := hR c hc; omega
  have hD' : ∀ c ∈ D, c ≠ 0 ∧ c ≠ 38 := fun c hc => by have := hD c hc; omega
  have hR61 : ∀ c ∈ R, c ≠ 0 ∧ c ≠ 61 := fun c hc => by have := hR c hc; omega
  obtain ⟨f1, f2, f3, f4⟩ := form_strstr S P R D (fun c hc => ⟨(hS c hc).1, (hS c hc).2.2⟩)
    (fun c hc => ⟨(hP c hc).1, (hP c hc).2.2⟩) hR61
  have hlen := form_body_length S P R D
  have htake : (form_body S P R D).take 255 = form_body S P R D :=
    List.take_of_length_le (by omega)
  obtain ⟨dec1, ws, hd1, hc1, hs1, hm1⟩ := decode_and_store 31 s.config.wifi_ssid S
    (fun c hc => (hS c hc).1) lS w1 z1
  obtain ⟨dec2, wp, hd2, hc2, hs2, hm2⟩ := decode_and_store 63 s.config.wifi_password P
    (fun c hc => (hP c hc).1) lP w2 z2
  obtain ⟨r, hr⟩ := save_wifi_config_some { s with config := { s.config with
        wifi_ssid := ws, wifi_password := wp,
        wifi_max_retries := decimal_value R, wifi_retry_delay_ms := decimal_value D } } hm1 hm2
  have hframe := save_wifi_config_frame _ r hr
  refine ⟨ws, wp, r, hs1, hs2, hr, hframe.2, ?_, ?_⟩
  · unfold save_config_handler
    rw [if_neg (by omega)]
    simp only [htake, f1, f2, f3, f4]
    rw [form_body_eq]
    simp only [List.drop_succ_cons, List.drop_zero]
    rw [extract_ssid_value S _ (fun c hc => ⟨(hS c hc).1, (hS c hc).2.1⟩) (by omega),
      extract_field_value 64 P _ (fun c hc => ⟨(hP c hc).1, (hP c hc).2.1⟩) (by omega),
      extract_field_value 10 R _ hR' (by omega), extract_field_last 10 D hD' (by omega)]
    simp only [Option.bind_eq_bind, Option.some_bind]
    rw [show (32 : Nat) - S.length = 31 + 1 - S.length from rfl,
      show (64 : Nat) - P.length = 63 + 1 - P.length from rfl, hd1, hd2]
    simp only [Option.some_bind, hc1, hc2]
    rw [atoi_numeral R _ hR lR (by omega), atoi_numeral D _ hD lD (by omega)]
    simp only [Option.some_bind, hr]
  · intro hf
    obtain ⟨s1, hsave, _, _, _, e1, e2, e3, e4⟩ := save_wifi_config_ok
      { s with config := { s.config with
        wifi_ssid := ws, wifi_password := wp,
        wifi_max_retries := decimal_value R, wifi_retry_delay_ms := decimal_value D } }
      hf hm1 hm2
    rw [hr] at hsave
    cases hsave
    simp only [hs1, hs2] at e1 e2
    exact ⟨rfl, e1, e2, e3, e4⟩

theorem C10_post_save_sets_config_witness :
    form_body (bytes "Home") (bytes "Secret1") (bytes "3") (bytes "500") = body_home ∧
    (∀ c ∈ bytes "Home", c ≠ 0 ∧ c ≠ 38 ∧ c ≠ 61) ∧
    (∀ c ∈ bytes "500", 48 ≤ c ∧ c ≤ 57) ∧
    (save_config_handler body_home (boot nvs_blank)).map (fun q =>
        (q.1, cstr q.2.config.wifi_ssid, cstr q.2.config.wifi_password,
          q.2.config.wifi_max_retries, q.2.config.wifi_retry_delay_ms)) =
      some (.ESP_OK, bytes "Home", bytes "Secret1", 3, 500) ∧
    (save_config_handler body_home (boot nvs_blank)).map (fun q =>
        (q.2.nvs.entries .NVS_KEY_SSID, q.2.nvs.entries .NVS_KEY_PASSWORD,
          q.2.nvs.entries .NVS_KEY_RETRIES, q.2.nvs.entries .NVS_KEY_DELAY)) =
      some (some (.str (bytes "Home")), some (.str (bytes "Secret1")), some (.i32 3),
        some (.i32 500)) := by
  obtain ⟨ws, wp, r, h1, h2, _, h4, h5, h6⟩ :=
    C10_post_save_sets_config (boot nvs_blank) (bytes "Home") (bytes "Secret1") (bytes "3")
      (bytes "500") (by decide) (by decide) (by decide) (by decide) (by decide) (by decide)
      (by decide) (by decide) nvs_blank [] rfl
  have hb : form_body (bytes "Home") (bytes "Secret1") (bytes "3") (bytes "500") = body_home := by
    decide
  have u1 : cstr (url_decode_loop 0 (bytes "Home")) = bytes "Home" := by decide
  have u2 : cstr (url_decode_loop 0 (bytes "Secret1")) = bytes "Secret1" := by decide
  have v1 : decimal_value (bytes "3") = 3 := by
    have : bytes "3" = [51] := by decide
    rw [this]; simp [decimal_value]
  have v2 : decimal_value (bytes "500") = 500 := by
    have : bytes "500" = [53, 48, 48] := by decide
    rw [this]; simp [decimal_value, Nat.ofDigits]
  obtain ⟨_, e1, e2, e3, e4⟩ := h6 (fun _ => rfl)
  rw [hb] at h5
  refine ⟨hb, by decide, by decide, ?_, ?_⟩
  · rw [h5]
    simp only [Option.map_some', firmware_t.emit, h4, h1, h2, u1, u2, v1, v2]
    rfl
  · rw [h5]
    simp only [Option.map_some', firmware_t.emit, e1, e2, e3, e4, u1, u2, v1, v2]
    rfl

/-! ## Decoder: timeouts and sample counts -/

theorem wait_while_stuck (line : Line) (lvl : Bool) (t : Nat) :
    ∀ (pos : Nat), (∀ k, k ≤ t → line (pos + k) = lvl) →
      wait_while line lvl t pos = (false, pos + t + 1) := by
  induction t with
  | zero =>
    intro pos h
    have h0 : line pos = lvl := by simpa using h 0 (le_refl _)
    simp [wait_while, h0]
  | succ t ih =>
    intro pos h
    have h0 : line pos = lvl := by simpa using h 0 (Nat.zero_le _)
    simp only [wait_while, if_pos h0]
    rw [ih (pos + 1) (fun k hk => by
      have := h (k + 1) (by omega)
      rwa [show pos + 1 + k = pos + (k + 1) by omega])]
    congr 1
    omega

theorem wait_while_end (line : Line) (lvl : Bool) (t : Nat) :
    ∀ (pos : Nat), pos < (wait_while line lvl t pos).2 ∧
      (wait_while line lvl t pos).2 ≤ pos + t + 1 := by
  induction t with
  | zero =>
    intro pos
    simp only [wait_while]
    split <;> simp
  | succ t ih =>
    intro pos
    simp only [wait_while]
    split
    · have := ih (pos + 1); omega
    · simp

theorem measure_high_end (line : Line) (fuel : Nat) :
    ∀ (high_time pos : Nat), pos < (measure_high line fuel high_time pos).2 ∧
      (measure_high line fuel high_time pos).2 ≤ pos + fuel + 1 := by
  induction fuel with
  | zero => intro h pos; simp [measure_high]
  | succ fuel ih =>
    intro h pos
    simp only [measure_high]
    split
    · have := ih (h + 1) (pos + 1); omega
    · simp

theorem read_bits_end_le (line : Line) (n : Nat) :
    ∀ (pos : Nat), read_bits_end line n pos ≤ pos + n * (10001 + 101) := by
  induction n with
  | zero => intro pos; simp [read_bits_end]
  | succ n ih =>
    intro pos
    simp only [read_bits_end]
    have hw := wait_while_end line false 10000 pos
    rcases hwv : wait_while line false 10000 pos with ⟨ok, p1⟩
    rw [hwv] at hw
    cases ok
    · simp only; simp only at hw; omega
    · simp only
      simp only at hw
      have hm := measure_high_end line 100 0 p1
      have := ih (measure_high line 100 0 p1).2
      omega

theorem read_bits_end_eq (line : Line) (n : Nat) :
    ∀ (i pos : Nat) (data d : List Nat) (p : Nat),
      read_bits line n i pos data = some (d, p) → p = read_bits_end line n pos := by
  induction n with
  | zero =>
    intro i pos data d p h
    simp only [read_bits, Option.some.injEq, Prod.mk.injEq] at h
    simp [read_bits_end, h.2]
  | succ n ih =>
    intro i pos data d p h
    simp only [read_bits] at h
    simp only [read_bits_end]
    rcases hwv : wait_while line false 10000 pos with ⟨ok, p1⟩
    rw [hwv] at h
    cases ok
    · simp at h
    · simp only at h ⊢
      exact ih _ _ _ _ _ h

theorem read_bits_split (line : Line) (j : Nat) :
    ∀ (m i pos : Nat) (data : List Nat),
      read_bits line (j + m) i pos data =
        match read_bits line j i pos data with
        | none => none
        | some r => read_bits line m (i + j) r.2 r.1 := by
  induction j with
  | zero => intro m i pos data; simp [read_bits]
  | succ j ih =>
    intro m i pos data
    rw [show j + 1 + m = (j + m) + 1 by omega]
    simp only [read_bits]
    rcases hwv : wait_while line false 10000 pos with ⟨ok, p1⟩
    cases ok
    · simp
    · simp only
      rw [ih]
      rw [show i + 1 + j = i + (j + 1) by omega]

theorem read_dht11_data_of_no_frame (config : app_config_t) (line : Line)
    (h : dht11_frame line = none) : read_dht11_data config line = (false, config) := by
  simp [read_dht11_data, h]

/-- C15. With the sensor line an arbitrary sequence of sampled levels: when the
line keeps the level a handshake wait is waiting on for 10001 consecutive
samples (line never pulled low, low phase never ending, high phase never
ending), or keeps a bit's low separator for 10001 consecutive samples, the
function returns `false` and `config`, with the stored temperature and
humidity, is unchanged. -/
theorem C15_timeouts_keep_reading (config : app_config_t) (line : Line) :
    ((∀ k, k ≤ 10000 → line k = true) → read_dht11_data config line = (false, config)) ∧
    (∀ p1, wait_while line true 10000 0 = (true, p1) →
      (∀ k, k ≤ 10000 → line (p1 + k) = false) →
      read_dht11_data config line = (false, config)) ∧
    (∀ p1 p2, wait_while line true 10000 0 = (true, p1) →
      wait_while line false 10000 p1 = (true, p2) →
      (∀ k, k ≤ 10000 → line (p2 + k) = true) →
      read_dht11_data config line = (false, config)) ∧
    (∀ p3 j d p, dht11_handshake line = some p3 → j < 40 →
      read_bits line j 0 p3 [0, 0, 0, 0, 0] = some (d, p) →
      (∀ k, k ≤ 10000 → line (p + k) = false) →
      read_dht11_data config line = (false, config)) := by
  refine ⟨?_, ?_, ?_, ?_⟩
  · intro h
    apply read_dht11_data_of_no_frame
    have hw := wait_while_stuck line true 10000 0 (by simpa using h)
    simp [dht11_frame, dht11_handshake, hw]
  · intro p1 h1 h
    apply read_dht11_data_of_no_frame
    have hw := wait_while_stuck line false 10000 p1 h
    simp [dht11_frame, dht11_handshake, h1, hw]
  · intro p1 p2 h1 h2 h
    apply read_dht11_data_of_no_frame
    have hw := wait_while_stuck line true 10000 p2 h
    simp [dht11_frame, dht11_handshake, h1, h2, hw]
  · intro p3 j d p hh hj hb h
    apply read_dht11_data_of_no_frame
    have hw := wait_while_stuck line false 10000 p h
    obtain ⟨m, hm⟩ : ∃ m, 40 = j + (m + 1) := ⟨40 - j - 1, by omega⟩
    simp only [dht11_frame, hh]
    rw [hm, read_bits_split, hb]
    simp [read_bits, hw]

theorem C15_timeouts_keep_reading_witness :
    (∀ k, k ≤ 10000 → (fun _ => true : Line) k = true) ∧
    read_dht11_data config_init (fun _ => true) = (false, config_init) :=
  ⟨fun _ _ => rfl,
    (C15_timeouts_keep_reading config_init (fun _ => true)).1 (fun _ _ => rfl)⟩

/-- C18. The model of `read_dht11_data` is a total function: for every sequence
of sampled levels it returns `true` or `false`.  Each bounded wait takes at most
10001 samples and each pulse measurement at most 101, so one run takes at most
`3 * 10001 + 40 * (10001 + 101)` samples; a run that completes the 40 bits has
taken exactly the counted number; a line stuck high makes it return after 10001
samples and a line stuck low after 10002. -/
theorem C18_decoder_terminates (config : app_config_t) (line : Line) :
    ((read_dht11_data config line).1 = true ∨ (read_dht11_data config line).1 = false) ∧
    dht11_samples line ≤ 3 * 10001 + 40 * (10001 + 101) ∧
    (∀ lvl pos, (wait_while line lvl 10000 pos).2 ≤ pos + 10001) ∧
    (∀ pos, (measure_high line 100 0 pos).2 ≤ pos + 101) ∧
    (match dht11_frame line with
      | some r => r.2 = dht11_samples line
      | none => True) ∧
    dht11_samples (fun _ => true) = 10001 ∧
    dht11_samples (fun _ => false) = 10002 := by
  refine ⟨?_, ?_, ?_, ?_, ?_, ?_, ?_⟩
  · cases (read_dht11_data config line).1 <;> simp
  · unfold dht11_samples
    have w1 := wait_while_end line true 10000 0
    rcases h1 : wait_while line true 10000 0 with ⟨ok1, p1⟩
    rw [h1] at w1
    cases ok1
    · simp only at w1 ⊢; omega
    · simp only at w1 ⊢
      have w2 := wait_while_end line false 10000 p1
      rcases h2 : wait_while line false 10000 p1 with ⟨ok2, p2⟩
      rw [h2] at w2
      cases ok2
      · simp only at w2 ⊢; omega
      · simp only at w2 ⊢
        have w3 := wait_while_end line true 10000 p2
        rcases h3 : wait_while line true 10000 p2 with ⟨ok3, p3⟩
        rw [h3] at w3
        cases ok3
        · simp only at w3 ⊢; omega
        · simp only at w3 ⊢
          have := read_bits_end_le line 40 p3
          omega
  · intro lvl pos
    have := wait_while_end line lvl 10000 pos
    omega
  · intro pos
    have := measure_high_end line 100 0 pos
    omega
  · unfold dht11_frame dht11_handshake dht11_samples
    rcases h1 : wait_while line true 10000 0 with ⟨ok1, p1⟩
    cases ok1
    · simp
    · simp only
      rcases h2 : wait_while line false 10000 p1 with ⟨ok2, p2⟩
      cases ok2
      · simp
      · simp only
        rcases h3 : wait_while line true 10000 p2 with ⟨ok3, p3⟩
        cases ok3
        · simp
        · simp only
          cases hb : read_bits line 40 0 p3 [0, 0, 0, 0, 0] with
          | none => simp
          | some r => exact read_bits_end_eq line 40 0 p3 _ r.1 r.2 hb
  · have hw := wait_while_stuck (fun _ => true) true 10000 0 (fun _ _ => rfl)
    simp [dht11_samples, hw]
  · have h1 : wait_while (fun _ => false) true 10000 0 = (true, 1) := by
      simp [wait_while]
    have hw := wait_while_stuck (fun _ => false) false 10000 1 (fun _ _ => rfl)
    simp [dht11_samples, h1, hw]

/-! ## TelemetryPublisher -/

/-- C13. A publish call is made by `send_dht11_data` only when both
`mqtt_connected` and `wifi_connected` are true at the call; when either is false
it returns before `create_telemetry_json` (the result does not depend on
`json_ok`) and publishes nothing; in every case the state is left as it was. -/
theorem C13_publish_needs_both_flags (json_ok : Bool) (s : firmware_t) :
    ((send_dht11_data json_ok s).2.isSome = true →
      s.wifi_connected = true ∧ s.mqtt_connected = true) ∧
    (s.wifi_connected = false ∨ s.mqtt_connected = false →
      send_dht11_data true s = (s, none) ∧ send_dht11_data false s = (s, none)) ∧
    (send_dht11_data json_ok s).1 = s ∧
    (s.wifi_connected = true → s.mqtt_connected = true →
      send_dht11_data true s = (s, some
        { topic := s.config.mqtt_telemetry_topic,
          temperature := s.config.temperature,
          humidity := s.config.humidity,
          len := 0, qos := 0, retain := 10000 })) := by
  unfold send_dht11_data
  refine ⟨?_, ?_, ?_, ?_⟩
  · cases hm : s.mqtt_connected <;> cases hw : s.wifi_connected <;> cases json_ok <;> simp
  · intro h
    cases hm : s.mqtt_connected <;> cases hw : s.wifi_connected <;> simp_all
  · cases hm : s.mqtt_connected <;> cases hw : s.wifi_connected <;> cases json_ok <;> simp
  · intro hw hm
    simp [hw, hm]

theorem C13_publish_needs_both_flags_witness :
    joined_state.wifi_connected = true ∧ joined_state.mqtt_connected = false ∧
    (send_dht11_data true joined_state).2 = none ∧
    (send_dht11_data true { joined_state with mqtt_connected := true }).2 =
      some { topic := c_array 64 "v1/devices/me/telemetry", temperature := 0, humidity := 0,
             len := 0, qos := 0, retain := 10000 } :=
  ⟨rfl, rfl,
    congrArg Prod.snd ((C13_publish_needs_both_flags true joined_state).2.1 (Or.inr rfl)).1,
    congrArg Prod.snd ((C13_publish_needs_both_flags true
      { joined_state with mqtt_connected := true }).2.2.2 rfl rfl)⟩

/-! ## ConfigStore: fallback of the numeric keys -/

/-- C14. With an SSID and a password stored (of at most 31 and 63 bytes, as
`save_wifi_config` writes them) and a medium that does not fail,
`load_wifi_config` returns `ESP_OK`, loads both strings, and replaces each
missing numeric key on its own: without `max_retries` the result has 5 and the
stored delay, without `retry_delay_ms` it has the stored retries and 1000,
without both it has 5 and 1000. -/
theorem C14_numeric_keys_fall_back (s : firmware_t) (ssid password : List Nat)
    (hf : ∀ c, s.nvs.faulty c = false) (hn : s.nvs.namespace_exists = true)
    (e1 : s.nvs.entries .NVS_KEY_SSID = some (.str ssid))
    (e2 : s.nvs.entries .NVS_KEY_PASSWORD = some (.str password))
    (l1 : ssid.length + 1 ≤ s.config.wifi_ssid.length)
    (l2 : password.length + 1 ≤ s.config.wifi_password.length) :
    (load_wifi_config s).1 = .ESP_OK ∧
    (load_wifi_config s).2.config.wifi_ssid =
      ssid ++ 0 :: s.config.wifi_ssid.drop (ssid.length + 1) ∧
    (load_wifi_config s).2.config.wifi_password =
      password ++ 0 :: s.config.wifi_password.drop (password.length + 1) ∧
    (∀ d, s.nvs.entries .NVS_KEY_RETRIES = none →
      s.nvs.entries .NVS_KEY_DELAY = some (.i32 d) →
      (load_wifi_config s).2.config.wifi_max_retries = 5 ∧
      (load_wifi_config s).2.config.wifi_retry_delay_ms = d) ∧
    (∀ r, s.nvs.entries .NVS_KEY_RETRIES = some (.i32 r) →
      s.nvs.entries .NVS_KEY_DELAY = none →
      (load_wifi_config s).2.config.wifi_max_retries = r ∧
      (load_wifi_config s).2.config.wifi_retry_delay_ms = 1000) ∧
    (s.nvs.entries .NVS_KEY_RETRIES = none →
      s.nvs.entries .NVS_KEY_DELAY = none →
      (load_wifi_config s).2.config.wifi_max_retries = 5 ∧
      (load_wifi_config s).2.config.wifi_retry_delay_ms = 1000) := by
  have hload : load_wifi_config s = (.ESP_OK, { s with config := { s.config with
      wifi_ssid := ssid ++ 0 :: s.config.wifi_ssid.drop (ssid.length + 1),
      wifi_password := password ++ 0 :: s.config.wifi_password.drop (password.length + 1),
      wifi_max_retries :=
        if (nvs_get_i32 s.nvs .NVS_KEY_RETRIES s.config.wifi_max_retries).1 ≠ .ESP_OK then 5
        else (nvs_get_i32 s.nvs .NVS_KEY_RETRIES s.config.wifi_max_retries).2,
      wifi_retry_delay_ms :=
        if (nvs_get_i32 s.nvs .NVS_KEY_DELAY s.config.wifi_retry_delay_ms).1 ≠ .ESP_OK then 1000
        else (nvs_get_i32 s.nvs .NVS_KEY_DELAY s.config.wifi_retry_delay_ms).2 } }) := by
    unfold load_wifi_config
    simp [nvs_open, nvs_get_str, hf, hn, e1, e2, l1, l2]
  rw [hload]
  refine ⟨rfl, rfl, rfl, ?_, ?_, ?_⟩
  · intro d h3 h4
    simp [nvs_get_i32, hf, h3, h4]
  · intro r h3 h4
    simp [nvs_get_i32, hf, h3, h4]
  · intro h3 h4
    simp [nvs_get_i32, hf, h3, h4]

theorem C14_numeric_keys_fall_back_witness :
    (boot nvs_no_retries).nvs.entries .NVS_KEY_SSID = some (.str (bytes "Home")) ∧
    (boot nvs_no_retries).nvs.entries .NVS_KEY_RETRIES = none ∧
    (boot nvs_no_retries).nvs.entries .NVS_KEY_DELAY = some (.i32 500) ∧
    (load_wifi_config (boot nvs_no_retries)).1 = .ESP_OK ∧
    (load_wifi_config (boot nvs_no_retries)).2.config.wifi_max_retries = 5 ∧
    (load_wifi_config (boot nvs_no_retries)).2.config.wifi_retry_delay_ms = 500 :=
  have h := C14_numeric_keys_fall_back (boot nvs_no_retries) (bytes "Home") (bytes "Secret1")
    (fun _ => rfl) rfl rfl rfl (by decide) (by decide)
  ⟨rfl, rfl, rfl, h.1, (h.2.2.2.1 500 rfl rfl).1, (h.2.2.2.1 500 rfl rfl).2⟩

/-! ## Percent-decoding -/

theorem hex_digit_some (c a : Nat) (h : hex_digit c = some a) :
    hex_value c = a ∧ isxdigit c = true ∧ c ≠ 0 ∧ a < 16 := by
  unfold hex_digit at h
  split at h
  · cases h
    rename_i hc
    refine ⟨?_, ?_, by omega, by omega⟩
    · unfold hex_value
      simp only []
      split_ifs <;> omega
    · unfold isxdigit; simp; omega
  · split at h
    · cases h
      rename_i hc
      refine ⟨?_, ?_, by omega, by omega⟩
      · unfold hex_value
        simp only []
        split_ifs <;> omega
      · unfold isxdigit; simp; omega
    · split at h
      · cases h
        rename_i hc
        refine ⟨?_, ?_, by omega, by omega⟩
        · unfold hex_value
          simp only []
          split_ifs <;> omega
        · unfold isxdigit; simp; omega
      · cases h

theorem hex_digit_none (c : Nat) (h : hex_digit c = none) : isxdigit c = false := by
  unfold hex_digit at h
  unfold isxdigit
  split at h
  · cases h
  · split at h
    · cases h
    · split at h
      · cases h
      · simp; omega

theorem percent_decode_cons (c : Nat) (rest : List Nat) :
    percent_decode (c :: rest) =
      if c = 37 then
        match hex_digit (rest.getD 0 0), hex_digit (rest.getD 1 0) with
        | some a, some b => (16 * a + b) :: percent_decode (rest.drop 2)
        | _, _ => 37 :: percent_decode rest
      else if c = 43 then 32 :: percent_decode rest
      else c :: percent_decode rest := by
  rw [percent_decode]

theorem url_decode_loop_percent (h l a b : Nat) (r : List Nat)
    (ha : hex_digit h = some a) (hb : hex_digit l = some b) :
    url_decode_loop 0 (37 :: h :: l :: r) = (16 * a + b) :: url_decode_loop 0 r := by
  obtain ⟨v1, x1, n1, b1⟩ := hex_digit_some h a ha
  obtain ⟨v2, x2, n2, b2⟩ := hex_digit_some l b hb
  rw [url_decode_loop_cons]
  simp only [List.getD_cons_zero, List.getD_cons_succ, url_decode_loop_skip2]
  rw [if_neg (by decide), if_pos ⟨trivial, n1, n2, x1, x2⟩, v1, v2]
  congr 1
  omega

theorem url_decode_loop_bad_percent (r : List Nat)
    (h : hex_digit (r.getD 0 0) = none ∨ hex_digit (r.getD 1 0) = none) :
    url_decode_loop 0 (37 :: r) = 37 :: url_decode_loop 0 r := by
  rw [url_decode_loop_cons]
  rw [if_neg (by decide), if_neg, if_neg (by decide)]
  rintro ⟨_, _, _, x1, x2⟩
  rcases h with h | h
  · rw [hex_digit_none _ h] at x1; cases x1
  · rw [hex_digit_none _ h] at x2; cases x2

theorem url_decode_loop_plus (r : List Nat) :
    url_decode_loop 0 (43 :: r) = 32 :: url_decode_loop 0 r := by
  rw [url_decode_loop_cons]
  rw [if_neg (by decide), if_neg (by rintro ⟨h, _⟩; cases h), if_pos rfl]

theorem url_decode_loop_other (c : Nat) (r : List Nat) (h0 : c ≠ 0) (h1 : c ≠ 37)
    (h2 : c ≠ 43) : url_decode_loop 0 (c :: r) = c :: url_decode_loop 0 r := by
  rw [url_decode_loop_cons]
  rw [if_neg h0, if_neg (by rintro ⟨h, _⟩; exact h1 h), if_neg h2]

theorem url_decode_loop_eq_spec (n : Nat) :
    ∀ (S : List Nat), S.length = n → (∀ c ∈ S, c ≠ 0) →
      url_decode_loop 0 S = percent_decode S := by
  induction n using Nat.strong_induction_on with
  | _ n ih =>
    intro S hlen hS
    cases S with
    | nil => simp [url_decode_loop, percent_decode]
    | cons c rest =>
      have hc : c ≠ 0 := hS c (by simp)
      have hrest : ∀ x ∈ rest, x ≠ 0 := fun x hx => hS x (by simp [hx])
      simp only [List.length_cons] at hlen
      have ih0 := ih rest.length (by omega) rest rfl hrest
      rw [percent_decode_cons]
      by_cases h37 : c = 37
      · subst h37
        rw [if_pos rfl]
        cases ha : hex_digit (rest.getD 0 0) with
        | none =>
          simp only []
          rw [url_decode_loop_bad_percent rest (Or.inl ha), ih0]
        | some a =>
          cases hb : hex_digit (rest.getD 1 0) with
          | none =>
            simp only []
            rw [url_decode_loop_bad_percent rest (Or.inr hb), ih0]
          | some b =>
            simp only []
            have n1 := (hex_digit_some _ a ha).2.2.1
            have n2 := (hex_digit_some _ b hb).2.2.1
            cases rest with
            | nil => simp at n1
            | cons h rest1 =>
              cases rest1 with
              | nil => simp at n2
              | cons l r =>
                simp only [List.getD_cons_zero, List.getD_cons_succ] at ha hb
                rw [url_decode_loop_percent h l a b r ha hb]
                have hr : ∀ x ∈ r, x ≠ 0 := fun x hx => hrest x (by simp [hx])
                have ih2 := ih r.length (by simp at hlen; omega) r rfl hr
                simp only [List.drop_succ_cons, List.drop_zero]
                rw [ih2]
      · rw [if_neg h37]
        by_cases h43 : c = 43
        · subst h43
          rw [if_pos rfl, url_decode_loop_plus, ih0]
        · rw [if_neg h43, url_decode_loop_other c rest hc h37 h43, ih0]

theorem percent_decode_plain (S : List Nat) (h : ∀ c ∈ S, c ≠ 37 ∧ c ≠ 43) :
    percent_decode S = S := by
  induction S with
  | nil => simp [percent_decode]
  | cons c rest ih =>
    have hc := h c (by simp)
    rw [percent_decode_cons, if_neg hc.1, if_neg hc.2, ih (fun x hx => h x (by simp [hx]))]

/-- C16. For a source string `S` (no NUL inside, NUL after it), `url_decode`
writes the percent-decoding of `S` followed by a NUL: scanning left to right, a
`%` followed by two hexadecimal digits of values `a` and `b` gives the byte
`16 * a + b`, a `+` gives a space, a `%` not followed by two hexadecimal digits
and every other byte are copied; a string without `%` and `+` is written
unchanged. -/
theorem C16_url_decode_percent_decoding (S t dst : List Nat) (hS : ∀ c ∈ S, c ≠ 0) :
    url_decode_loop 0 (S ++ 0 :: t) = percent_decode S ∧
    ((percent_decode S).length + 1 ≤ dst.length →
      url_decode dst (S ++ 0 :: t) =
        some (percent_decode S ++ 0 :: dst.drop ((percent_decode S).length + 1))) ∧
    ((∀ c ∈ S, c ≠ 37 ∧ c ≠ 43) → url_decode_loop 0 (S ++ 0 :: t) = S) ∧
    (∀ h l a b r, hex_digit h = some a → hex_digit l = some b →
      url_decode_loop 0 (37 :: h :: l :: r) = (16 * a + b) :: url_decode_loop 0 r) ∧
    (∀ r, (hex_digit (r.getD 0 0) = none ∨ hex_digit (r.getD 1 0) = none) →
      url_decode_loop 0 (37 :: r) = 37 :: url_decode_loop 0 r) ∧
    (∀ r, url_decode_loop 0 (43 :: r) = 32 :: url_decode_loop 0 r) ∧
    (∀ c r, c ≠ 0 → c ≠ 37 → c ≠ 43 →
      url_decode_loop 0 (c :: r) = c :: url_decode_loop 0 r) := by
  have hmain : url_decode_loop 0 (S ++ 0 :: t) = percent_decode S := by
    rw [url_decode_loop_nul S.length S t rfl hS]
    exact url_decode_loop_eq_spec S.length S rfl hS
  refine ⟨hmain, ?_, ?_, url_decode_loop_percent, url_decode_loop_bad_percent,
    url_decode_loop_plus, url_decode_loop_other⟩
  · intro hfit
    unfold url_decode
    rw [if_pos (by simp)]
    simp only [hmain]
    rw [if_pos hfit]
  · intro hplain
    rw [hmain, percent_decode_plain S hplain]

theorem C16_url_decode_percent_decoding_witness :
    (∀ c ∈ bytes "My+Net%2fA%", c ≠ 0) ∧
    percent_decode (bytes "My+Net%2fA%") = bytes "My Net/A%" ∧
    url_decode (zeros 32) (bytes "My+Net%2fA%" ++ 0 :: zeros 20) =
      some (bytes "My Net/A%" ++ 0 :: zeros 22) :=
  have h := C16_url_decode_percent_decoding (bytes "My+Net%2fA%") (zeros 20) (zeros 32)
    (by decide)
  ⟨by decide, h.1.symm.trans (by decide), by decide⟩

/-! ## Provisioning: bounds, persistence errors and field order -/

theorem mem_zero_of_last (l : List Nat) (n : Nat) (hl : l.length = n + 1)
    (hz : l.getD n 1 = 0) : 0 ∈ l := by
  rw [List.getD_eq_getElem?_getD, List.getElem?_eq_getElem (by omega)] at hz
  simp only [Option.getD_some] at hz
  rw [← hz]
  exact List.getElem_mem _

/-- C11 as stated fails.  The handler copies the `ssid` value of 40 bytes with
`strncpy(ssid, ssid_start, 40)` into the array of 32 bytes, so the copy leaves
the array (no result in the model); and it stores the retry count `-1` of the
body `ssid=a&password=b&retries=-1&delay=0` in memory and in the store. -/
theorem C11_counterexample :
    strncpy (zeros 32) (body_long_ssid.drop 5 ++ [0]) 40 = none ∧
    extract_ssid (body_long_ssid.drop 5 ++ [0]) = none ∧
    (save_config_handler body_long_ssid (boot nvs_blank)).isNone = true ∧
    (save_config_handler body_negative (boot nvs_blank)).map
        (fun r => (r.2.config.wifi_max_retries, r.2.nvs.entries .NVS_KEY_RETRIES)) =
      some (-1, some (.i32 (-1))) := by
  refine ⟨by decide, by decide, rfl, rfl⟩

/-- C11, amended. In any state reached from a boot state, whenever
`save_config_handler` runs without a field copy leaving its array, the
configuration in memory afterwards has a NUL-terminated SSID of at most 31
bytes and a NUL-terminated password of at most 63 bytes; and when the handler
went as far as `esp_restart` on a medium that does not fail, the store holds
these two strings and the two numbers of the configuration in memory, whatever
their sign. -/
theorem C11_stored_strings_bounded (nvs0 : nvs_t) (ops : List op_t) (s : firmware_t)
    (recv : List Nat) (r : esp_err_t × firmware_t)
    (hreach : run (boot nvs0) ops = some s)
    (hr : save_config_handler recv s = some r) :
    0 ∈ r.2.config.wifi_ssid ∧ (cstr r.2.config.wifi_ssid).length ≤ 31 ∧
    0 ∈ r.2.config.wifi_password ∧ (cstr r.2.config.wifi_password).length ≤ 63 ∧
    ((∀ c, s.nvs.faulty c = false) → r.2.effects.head? = some .esp_restart →
      r.2.nvs.entries .NVS_KEY_SSID = some (.str (cstr r.2.config.wifi_ssid)) ∧
      r.2.nvs.entries .NVS_KEY_PASSWORD = some (.str (cstr r.2.config.wifi_password)) ∧
      r.2.nvs.entries .NVS_KEY_RETRIES = some (.i32 r.2.config.wifi_max_retries) ∧
      r.2.nvs.entries .NVS_KEY_DELAY = some (.i32 r.2.config.wifi_retry_delay_ms)) := by
  have hwf0 := reachable_config_wf nvs0 ops s hreach
  obtain ⟨a1, a2, a3, a4, _, _⟩ := save_config_handler_wf recv s r hwf0 hr
  have m1 := mem_zero_of_last _ 31 a1 a2
  have m2 := mem_zero_of_last _ 63 a3 a4
  have c1 := cstr_length_lt _ m1
  have c2 := cstr_length_lt _ m2
  refine ⟨m1, by omega, m2, by omega, ?_⟩
  intro hf hhead
  obtain ⟨b1, b2, b3, b4, _, _⟩ := hwf0
  unfold save_config_handler at hr
  split at hr
  · cases hr; simp [firmware_t.emit] at hhead
  · simp only [] at hr
    split at hr
    · simp only [Option.bind_eq_bind, Option.bind_eq_some] at hr
      obtain ⟨_, _, _, _, _, _, _, _, _, _, _, _, ws, hws, wp, hwp, rv, _, dv, _, r1, h1, h2⟩ := hr
      cases h2
      have s1 := strncpy_shape _ _ _ 31 b1 b2 hws
      have s2 := strncpy_shape _ _ _ 63 b3 b4 hwp
      obtain ⟨s1', hsave, hcfg, _, _, e1, e2, e3, e4⟩ := save_wifi_config_ok
        { s with config := { s.config with
          wifi_ssid := ws, wifi_password := wp,
          wifi_max_retries := rv, wifi_retry_delay_ms := dv } }
        hf (mem_zero_of_last _ 31 s1.1 s1.2) (mem_zero_of_last _ 63 s2.1 s2.2)
      rw [h1] at hsave
      cases hsave
      simp only [firmware_t.emit, hcfg]
      exact ⟨e1, e2, e3, e4⟩
    · cases hr; simp [firmware_t.emit] at hhead

theorem C11_stored_strings_bounded_witness :
    run (boot nvs_blank) [] = some (boot nvs_blank) ∧
    save_config_handler body_home (boot nvs_blank) =
      some (.ESP_OK, provisioned_state) ∧
    (cstr provisioned_state.config.wifi_ssid).length ≤ 31 ∧
    (cstr provisioned_state.config.wifi_password).length ≤ 63 ∧
    provisioned_state.nvs.entries .NVS_KEY_SSID =
      some (.str (cstr provisioned_state.config.wifi_ssid)) :=
  have h := C11_stored_strings_bounded nvs_blank [] (boot nvs_blank) body_home
    (.ESP_OK, provisioned_state) rfl rfl
  ⟨rfl, rfl, h.2.1, h.2.2.2.1, (h.2.2.2.2 (fun _ => rfl) rfl).1⟩

/-- C12 fails on the code: with a store whose `nvs_open` fails,
`save_wifi_config` returns `ESP_FAIL` for the configuration of the body
`ssid=Home&password=Secret1&retries=3&delay=500` and nothing is persisted, yet
`save_config_handler` sends `HTML_SAVE_SUCCESS`, never `HTML_ERROR_PAGE`, and
goes on to `esp_restart`. -/
theorem C12_failed_save_sends_success_page :
    (save_wifi_config { home_state with nvs := nvs_open_fails }).map (fun r => r.1) =
      some .ESP_FAIL ∧
    (save_config_handler body_home (boot nvs_open_fails)).map (fun r => (r.1, r.2.effects)) =
      some (.ESP_OK,
        [.esp_restart, .vTaskDelay_ms 3000, .httpd_resp_send .HTML_SAVE_SUCCESS]) ∧
    (save_config_handler body_home (boot nvs_open_fails)).map
        (fun r => (cstr r.2.config.wifi_ssid, r.2.nvs.entries .NVS_KEY_SSID,
          r.2.nvs.namespace_exists)) =
      some (bytes "Home", none, false) := by
  refine ⟨rfl, rfl, rfl⟩

/-- C17 fails on the code: with the four fields of
`ssid=Home&password=Secret1&retries=3&delay=500` sent in the order password,
retries, delay, ssid, no `&` follows the `ssid` value, the handler has no
`else` branch for that case and the SSID set and persisted is empty, while the
other three fields are the same as for the order of the form. -/
theorem C17_ssid_last_is_dropped :
    (save_config_handler body_ssid_last (boot nvs_blank)).map
        (fun r => (cstr r.2.config.wifi_ssid, cstr r.2.config.wifi_password,
          r.2.config.wifi_max_retries, r.2.config.wifi_retry_delay_ms,
          r.2.nvs.entries .NVS_KEY_SSID)) =
      some ([], bytes "Secret1", 3, 500, some (.str [])) ∧
    (save_config_handler body_home (boot nvs_blank)).map
        (fun r => (cstr r.2.config.wifi_ssid, cstr r.2.config.wifi_password,
          r.2.config.wifi_max_retries, r.2.config.wifi_retry_delay_ms,
          r.2.nvs.entries .NVS_KEY_SSID)) =
      some (bytes "Home", bytes "Secret1", 3, 500, some (.str (bytes "Home"))) ∧
    extract_ssid (bytes "Home" ++ [0]) = some (zeros 32) ∧
    extract_field 64 (bytes "Secret1" ++ [0]) = some (c_array 64 "Secret1") := by
  refine ⟨rfl, rfl, by decide, by decide⟩

end Dht11Node
